import Mathlib

/-!
Verification of the scws backend core against its specification.

The development shallowly embeds the Python sources under
backend/scws/ (ADB connection and registry, scrcpy deployer and
process lifecycle manager, WebSocket fan-out manager) as executable
Lean definitions.  External effects (the adb transport, the Android
device, the local filesystem, wall-clock time) are modelled as
explicit oracle/state parameters threaded through the functions;
Python exceptions become Except results; datetimes become Nat ticks.
-/

set_option maxRecDepth 4000

namespace Scws

/-! ## Python exception model (backend/scws/utils/errors.py plus raw
external exceptions from the adb-shell library / OS). -/

/-- Exceptions that can flow through the embedded code.  The first five
constructors mirror the AppError subclasses of utils/errors.py that the
embedded modules raise; oserror stands for any raw exception coming out
of the external adb-shell transport or the OS (these are not AppErrors). -/
inductive PyExc where
  | adbConnectionError (msg : String) (details : Option String)
  | adbDeviceNotFoundError (serial : String)
  | adbDeviceOfflineError (serial : String)
  | scrcpyDeployError (msg : String) (details : Option String)
  | scrcpyStartError (msg : String) (details : Option String)
  | oserror (msg : String)
deriving DecidableEq, Repr

/-- Python str(e): AppError.__init__ calls super().__init__(message), so
str of an AppError is its message field; raw exceptions carry their own
message. -/
def PyExc.str : PyExc → String
  | .adbConnectionError msg _ => msg
  | .adbDeviceNotFoundError serial => "Device not found: " ++ serial
  | .adbDeviceOfflineError serial => "Device offline: " ++ serial
  | .scrcpyDeployError msg _ => msg
  | .scrcpyStartError msg _ => msg
  | .oserror msg => msg

/-- True for the AppError taxonomy of utils/errors.py, false for raw
external exceptions. -/
def PyExc.isAppError : PyExc → Bool
  | .oserror _ => false
  | _ => true

/-- The exception is an ADBConnectionError (code ADB_CONNECTION_FAILED),
the code-level counterpart of the specification error ConnectionFailed. -/
def PyExc.isConnectionFailed : PyExc → Bool
  | .adbConnectionError _ _ => true
  | _ => false

/-- The exception is a ScrcpyStartError (code SCRCPY_START_FAILED), the
code-level counterpart of the specification error ProcessStartFailed. -/
def PyExc.isStartError : PyExc → Bool
  | .scrcpyStartError _ _ => true
  | _ => false

/-- The exception is a ScrcpyDeployError (code SCRCPY_DEPLOY_FAILED), the
code-level counterpart of the specification error DeployFailed. -/
def PyExc.isDeployError : PyExc → Bool
  | .scrcpyDeployError _ _ => true
  | _ => false

/-! ## Python string semantics

The pieces of Python string behaviour the sources rely on:
str.split with a single-character separator, str.strip, and int().
Strings are taken as lists of characters where we reason by induction;
only the ASCII whitespace and decimal digits that actually occur in
device output are modelled. -/

/-- Characters stripped by str.strip() (ASCII whitespace). -/
def pyIsSpace (c : Char) : Bool :=
  c = ' ' || c = '\t' || c = '\n' || c = '\x0d' || c = '\x0b' || c = '\x0c'

/-- Python s.split(sep) for a single-character separator: splitting the
empty string yields one empty field, and every separator occurrence
starts a new field. -/
def pySplitChar (sep : Char) : List Char → List (List Char)
  | [] => [[]]
  | c :: cs =>
    if c = sep then [] :: pySplitChar sep cs
    else
      match pySplitChar sep cs with
      | [] => [[c]]
      | h :: t => (c :: h) :: t

/-- Tail of a valid Python integer-literal digit run, entered having just
consumed a digit: further digits, or single underscores that must be
followed by a digit (PEP 515 grouping). -/
def pyDigitsTail : List Char → Bool
  | [] => true
  | c :: cs =>
    if c = '_' then
      match cs with
      | [] => false
      | c2 :: cs2 => c2.isDigit && pyDigitsTail cs2
    else c.isDigit && pyDigitsTail cs

/-- A valid unsigned body for Python int(): at least one digit, with
single underscores allowed only between digits. -/
def pyDigitsValid : List Char → Bool
  | [] => false
  | c :: cs => c.isDigit && pyDigitsTail cs

/-- Numeric value of a digit run, ignoring grouping underscores. -/
def pyDigitsValue (l : List Char) : Nat :=
  (l.filter (fun c => !(c = '_'))).foldl (fun n c => n * 10 + (c.toNat - 48)) 0

/-- Python str.strip() on a character list. -/
def pyStripList (l : List Char) : List Char :=
  ((l.dropWhile pyIsSpace).reverse.dropWhile pyIsSpace).reverse

/-- Python int(s): strips whitespace, accepts one optional sign, then a
digit run with underscore grouping; returns none where CPython raises
ValueError.  (Non-ASCII digits and non-ASCII whitespace, which never
occur in the embedded call sites, are not modelled.) -/
def pyInt? (l : List Char) : Option Int :=
  match pyStripList l with
  | '+' :: rest => if pyDigitsValid rest then some (pyDigitsValue rest : Int) else none
  | '-' :: rest => if pyDigitsValid rest then some (-(pyDigitsValue rest : Int)) else none
  | rest => if pyDigitsValid rest then some (pyDigitsValue rest : Int) else none

/-- Python str.strip() on a String. -/
def pyStrip (s : String) : String :=
  ⟨pyStripList s.toList⟩

/-- Python "sub in s" for the non-empty substrings used by the sources,
via str.split: the substring occurs iff splitting on it yields at least
two fields. -/
def pyContainsSub (s sub : String) : Bool :=
  (s.splitOn sub).length != 1

/-! ## ADBConnection (backend/scws/core/adb/connection.py) -/

/-- ADBConnection._parse_port_from_serial: if the serial contains a
colon, try int() on field 1 of serial.split(":") (the text between the
first and second colon), silently falling back to the default port when
int() raises; IndexError cannot occur since a string containing the
separator splits into at least two fields. -/
def pyParsePortFromSerial (serial : List Char) (defaultPort : Int) : Int :=
  if serial.contains ':' then
    match pyInt? ((pySplitChar ':' serial).getD 1 []) with
    | some n => n
    | none => defaultPort
  else defaultPort

/-- Specification-side reading of the port rule: the text strictly
between the first colon and the following colon (or end of string). -/
def betweenFirstAndSecondColon (serial : List Char) : List Char :=
  ((serial.dropWhile (fun c => !(c = ':'))).drop 1).takeWhile (fun c => !(c = ':'))

/-! ## Data model (backend/scws/models/device.py, models/scrcpy.py) -/

/-- DeviceState enum. -/
inductive DeviceState where
  | device | offline | unauthorized
deriving DecidableEq, Repr

/-- TransportType enum. -/
inductive TransportType where
  | usb | wifi
deriving DecidableEq, Repr

/-- Resolution model. -/
structure Resolution where
  width : Int
  height : Int
deriving DecidableEq, Repr

/-- ADBDevice model: the DeviceSession published by the registry. -/
structure ADBDevice where
  id : String
  serial : String
  model : String
  state : DeviceState
  transportType : TransportType
  connectionTime : Nat
  manufacturer : Option String
  androidVersion : Option String
  resolution : Option Resolution
deriving DecidableEq, Repr

/-- VideoCodec enum values. -/
inductive VideoCodec where
  | h264 | h265
deriving DecidableEq, Repr

def VideoCodec.value : VideoCodec → String
  | .h264 => "h264"
  | .h265 => "h265"

/-- AudioCodec enum values. -/
inductive AudioCodec where
  | aac | opus
deriving DecidableEq, Repr

def AudioCodec.value : AudioCodec → String
  | .aac => "aac"
  | .opus => "opus"

/-- ScrcpyConfig model with its field defaults. -/
structure ScrcpyConfig where
  maxSize : Int := 1920
  bitRate : Int := 8000000
  maxFps : Int := 60
  audioCodec : AudioCodec := .opus
  audioBitRate : Int := 128000
  videoCodec : VideoCodec := .h264
  control : Bool := true
  audio : Bool := true
  displayId : Option Int := none
  crop : Option String := none
  lockVideoOrientation : Option Int := none
  tunnelForward : Bool := true
deriving DecidableEq, Repr

/-- ScrcpyServerState enum. -/
inductive ScrcpyServerState where
  | starting | running | stopping | stopped | error
deriving DecidableEq, Repr

/-! ## Environment: settings, transport faults, device state

config.py supplies adb_host/adb_port/scrcpy_server_path (field
defaults); the adb-shell transport and the Android device are external
collaborators, modelled as a fault oracle (which external calls raise)
plus explicit device-side state threaded through the operations. -/

/-- Relevant settings fields with their config.py defaults. -/
structure Settings where
  adbHost : String := "127.0.0.1"
  adbPort : Int := 5037
  scrcpyServerPath : String := "/opt/scrcpy-server.jar"

def settings : Settings := {}

/-- Fault oracle for one run of external calls: which transport
operations raise, and with what exception. -/
structure AdbTransport where
  connectFault : Option PyExc := none
  closeFault : Option PyExc := none
  shellFault : String → Option PyExc := fun _ => none
  pushFault : Option PyExc := none
  pullFault : Option PyExc := none

/-- Device-side state observable through shell commands: property
strings, the wm size output, and whether the scrcpy server artifact is
present at the fixed device path. -/
structure AndroidDevice where
  model : String := "Pixel 7"
  manufacturer : String := "Google"
  androidVersion : String := "14"
  wmSizeOutput : String := "Physical size: 1080x2400"
  hasServer : Bool := false
deriving DecidableEq, Repr

/-- Fixed device-side artifact path
(ScrcpyServerDeployer.SERVER_REMOTE_PATH). -/
def SERVER_REMOTE_PATH : String := "/data/local/tmp/scrcpy-server.jar"

/-- A single-quote string for building the verification shell command. -/
def sq : String := (Char.ofNat 39).toString

/-- Output the device produces for each shell command the embedded code
issues (a command that reaches the device and does not fault). -/
def AndroidDevice.shellOutput (d : AndroidDevice) (cmd : String) : String :=
  if cmd = "getprop ro.product.model" then d.model
  else if cmd = "getprop ro.product.manufacturer" then d.manufacturer
  else if cmd = "getprop ro.build.version.release" then d.androidVersion
  else if cmd = "wm size" then d.wmSizeOutput
  else if cmd = "test -f " ++ SERVER_REMOTE_PATH ++ " && echo exists" then
    (if d.hasServer then "exists" else "")
  else if cmd = "file " ++ SERVER_REMOTE_PATH ++ " | grep -q " ++ sq ++ "Java" ++ sq
      ++ " && echo valid" then
    (if d.hasServer then "valid" else "")
  else if cmd = "echo ping" then "ping"
  else ""

/-- Receiving a push at a device path: pushing to the fixed server path
makes the artifact present. -/
def AndroidDevice.receivePush (d : AndroidDevice) (devicePath : String) : AndroidDevice :=
  if devicePath = SERVER_REMOTE_PATH then { d with hasServer := true } else d

/-! ## ADBConnection state and operations -/

/-- ADBConnection instance state: serial, host, derived port, presence
of the underlying AdbDeviceTcpAsync handle, connected flag, and the
datetime fields (as Nat ticks). -/
structure ADBConnection where
  serial : String
  host : String
  port : Int
  deviceHandle : Bool
  connected : Bool
  connectionTime : Option Nat
  lastActivity : Option Nat
deriving DecidableEq, Repr

/-- ADBConnection.__init__(serial, host, port): port is derived from the
serial with the supplied port as default; no handle yet, not
connected. -/
def ADBConnection.init (serial : String) (host : String) (port : Int) : ADBConnection :=
  { serial := serial
    host := host
    port := pyParsePortFromSerial serial.toList port
    deviceHandle := false
    connected := false
    connectionTime := none
    lastActivity := none }

/-- is_connected property: connected flag and handle present. -/
def ADBConnection.isConnected (c : ADBConnection) : Bool :=
  c.connected && c.deviceHandle

/-- ADBConnection.connect(): allocates the transport handle, then the
external connect call (RSA key loading has no observable effect in the
model); on success sets connected and both timestamps, on failure leaves
connected false (the freshly assigned handle remains) and re-raises the
transport exception unchanged. -/
def ADBConnection.connect (tr : AdbTransport) (now : Nat) (c : ADBConnection) :
    Except PyExc Unit × ADBConnection :=
  let c1 := { c with deviceHandle := true }
  match tr.connectFault with
  | some e => (.error e, { c1 with connected := false })
  | none =>
    (.ok (), { c1 with connected := true, connectionTime := some now,
                       lastActivity := some now })

/-- ADBConnection.disconnect(): closes the handle if present; a failing
close re-raises and leaves the state untouched; otherwise the handle is
dropped and connected cleared. -/
def ADBConnection.disconnect (tr : AdbTransport) (c : ADBConnection) :
    Except PyExc Unit × ADBConnection :=
  if c.deviceHandle then
    match tr.closeFault with
    | some e => (.error e, c)
    | none => (.ok (), { c with deviceHandle := false, connected := false })
  else (.ok (), { c with connected := false })

/-- ADBConnection.shell(command): raises ADBDeviceOfflineError when not
connected; otherwise stamps last_activity (before the call, so also on a
failing command) and either returns the device output or re-raises the
transport exception unchanged. -/
def ADBConnection.shell (tr : AdbTransport) (dev : AndroidDevice) (now : Nat)
    (c : ADBConnection) (cmd : String) : Except PyExc String × ADBConnection :=
  if !c.isConnected then (.error (.adbDeviceOfflineError c.serial), c)
  else
    let c1 := { c with lastActivity := some now }
    match tr.shellFault cmd with
    | some e => (.error e, c1)
    | none => (.ok (dev.shellOutput cmd), c1)

/-- ADBConnection.push(local_path, device_path): offline check, then
last_activity stamp, then the local read and transport push (both faults
folded into pushFault, re-raised unchanged); a successful push updates
the device-side state. -/
def ADBConnection.push (tr : AdbTransport) (dev : AndroidDevice) (now : Nat)
    (c : ADBConnection) (localPath devicePath : String) :
    Except PyExc Unit × ADBConnection × AndroidDevice :=
  if !c.isConnected then (.error (.adbDeviceOfflineError c.serial), c, dev)
  else
    let c1 := { c with lastActivity := some now }
    match tr.pushFault with
    | some e => (.error e, c1, dev)
    | none => (.ok (), c1, dev.receivePush devicePath)

/-- ADBConnection.pull(device_path, local_path): offline check, then
last_activity stamp, then the transport pull and local write (faults
folded into pullFault, re-raised unchanged). -/
def ADBConnection.pull (tr : AdbTransport) (now : Nat) (c : ADBConnection)
    (devicePath localPath : String) : Except PyExc Unit × ADBConnection :=
  if !c.isConnected then (.error (.adbDeviceOfflineError c.serial), c)
  else
    let c1 := { c with lastActivity := some now }
    match tr.pullFault with
    | some e => (.error e, c1)
    | none => (.ok (), c1)

/-- Resolution parsing inside get_device_info: require the marker text,
take the field after it, strip it, and demand exactly two fields around
a lone "x", both parsed by int(); any failure yields no resolution
rather than an error. -/
def parseResolution (wmSize : String) : Option Resolution :=
  if pyContainsSub wmSize "Physical size:" then
    let sizeStr := pyStrip ((wmSize.splitOn "Physical size:").getD 1 "")
    match sizeStr.splitOn "x" with
    | [w, h] =>
      match pyInt? w.toList, pyInt? h.toList with
      | some wi, some hi => some { width := wi, height := hi }
      | _, _ => none
    | _ => none
  else none

/-- ADBConnection.get_device_info(): four sequential shell commands (any
failure aborts the whole call with that error); the screen-size parse
tolerates failure by leaving resolution absent. -/
def ADBConnection.getDeviceInfo (tr : AdbTransport) (dev : AndroidDevice) (now : Nat)
    (c : ADBConnection) : Except PyExc ADBDevice × ADBConnection :=
  match c.shell tr dev now "getprop ro.product.model" with
  | (.error e, c1) => (.error e, c1)
  | (.ok modelRaw, c1) =>
    match c1.shell tr dev now "getprop ro.product.manufacturer" with
    | (.error e, c2) => (.error e, c2)
    | (.ok manufacturerRaw, c2) =>
      match c2.shell tr dev now "getprop ro.build.version.release" with
      | (.error e, c3) => (.error e, c3)
      | (.ok versionRaw, c3) =>
        match c3.shell tr dev now "wm size" with
        | (.error e, c4) => (.error e, c4)
        | (.ok wmSize, c4) =>
          (.ok { id := c.serial
                 serial := c.serial
                 model := pyStrip modelRaw
                 state := .device
                 transportType := if c.serial.contains ':' then .wifi else .usb
                 connectionTime := c4.connectionTime.getD now
                 manufacturer := some (pyStrip manufacturerRaw)
                 androidVersion := some (pyStrip versionRaw)
                 resolution := parseResolution wmSize }, c4)

/-- ADBConnection.health_check(): false while disconnected, otherwise a
round-trip echo; success re-stamps last_activity and yields true, any
failure yields false instead of raising. -/
def ADBConnection.healthCheck (tr : AdbTransport) (dev : AndroidDevice) (now : Nat)
    (c : ADBConnection) : Bool × ADBConnection :=
  if !c.isConnected then (false, c)
  else
    match c.shell tr dev now "echo ping" with
    | (.ok _, c1) => (true, { c1 with lastActivity := some now })
    | (.error _, c1) => (false, c1)

/-! ## ScrcpyConfigBuilder (backend/scws/core/scrcpy/config_builder.py) -/

/-- Python str(bool).lower(). -/
def pyBoolStr (b : Bool) : String := if b then "true" else "false"

/-- ScrcpyConfigBuilder.build_args(config). -/
def ScrcpyConfigBuilder.buildArgs (config : ScrcpyConfig) : List String :=
  ["scid=0",
   "max_size=" ++ toString config.maxSize,
   "bit_rate=" ++ toString config.bitRate,
   "max_fps=" ++ toString config.maxFps,
   "video_codec=" ++ config.videoCodec.value]
  ++ (if config.audio then
        ["audio=true",
         "audio_codec=" ++ config.audioCodec.value,
         "audio_bit_rate=" ++ toString config.audioBitRate]
      else ["audio=false"])
  ++ ["control=" ++ pyBoolStr config.control]
  ++ (match config.displayId with
      | some d => ["display_id=" ++ toString d]
      | none => [])
  ++ (match config.crop with
      | some cr => if cr = "" then [] else ["crop=" ++ cr]
      | none => [])
  ++ (match config.lockVideoOrientation with
      | some o => ["lock_video_orientation=" ++ toString o]
      | none => [])
  ++ (if config.tunnelForward then ["tunnel_forward=true"] else [])
  ++ ["send_device_meta=true", "send_frame_meta=true", "send_codec_meta=true",
      "send_dummy_byte=false", "downsize_on_error=false", "cleanup=true",
      "power_off_on_close=false"]

/-- ScrcpyConfigBuilder.build_command(config). -/
def ScrcpyConfigBuilder.buildCommand (config : ScrcpyConfig) : String :=
  "CLASSPATH=" ++ settings.scrcpyServerPath
    ++ " app_process / com.genymobile.scrcpy.Server "
    ++ String.intercalate " " (ScrcpyConfigBuilder.buildArgs config)

/-- ScrcpyConfigBuilder.get_server_path(). -/
def ScrcpyConfigBuilder.getServerPath : String := settings.scrcpyServerPath

/-! ## ScrcpyServerDeployer (backend/scws/core/scrcpy/server_deployer.py) -/

/-- The literal mode of the chmod the deployer issues on the pushed
artifact. -/
def SERVER_CHMOD_MODE : Nat := 644

/-- The chmod command the deployer runs after the push. -/
def chmodServerCmd : String :=
  "chmod " ++ toString SERVER_CHMOD_MODE ++ " " ++ SERVER_REMOTE_PATH

/-- An octal permission digit grants execute iff its low bit is set. -/
def permDigitExec (d : Nat) : Bool := d % 2 = 1

/-- An octal permission digit grants read iff its 4-bit is set. -/
def permDigitRead (d : Nat) : Bool := d / 4 % 2 = 1

/-- Whether a three-digit chmod mode literal grants execute to owner,
group or others. -/
def modeGrantsExecute (m : Nat) : Bool :=
  permDigitExec (m / 100 % 10) || permDigitExec (m / 10 % 10) || permDigitExec (m % 10)

/-- The operations a deploy run performs, in order, for observing what a
call did (in particular whether it pushed). -/
inductive DeployOp where
  | checkDeployed | pushFile | chmodFile | verifyFile | verifyFallback
deriving DecidableEq, Repr

/-- ScrcpyServerDeployer._is_server_deployed: existence probe; a raised
probe is treated as not deployed. -/
def ScrcpyServerDeployer.isServerDeployed (tr : AdbTransport) (dev : AndroidDevice)
    (now : Nat) (c : ADBConnection) : Bool × ADBConnection :=
  match c.shell tr dev now ("test -f " ++ SERVER_REMOTE_PATH ++ " && echo exists") with
  | (.ok r, c1) => (pyStrip r == "exists", c1)
  | (.error _, c1) => (false, c1)

/-- ScrcpyServerDeployer._push_server: push then chmod 644; any failure
is wrapped into ScrcpyDeployError("Failed to push server file"). -/
def ScrcpyServerDeployer.pushServer (tr : AdbTransport) (dev : AndroidDevice) (now : Nat)
    (c : ADBConnection) (localPath : String) :
    Except PyExc Unit × ADBConnection × AndroidDevice × List DeployOp :=
  match c.push tr dev now localPath SERVER_REMOTE_PATH with
  | (.error e, c1, d1) =>
    (.error (.scrcpyDeployError "Failed to push server file" (some e.str)), c1, d1,
     [.pushFile])
  | (.ok _, c1, d1) =>
    match c1.shell tr d1 now chmodServerCmd with
    | (.error e, c2) =>
      (.error (.scrcpyDeployError "Failed to push server file" (some e.str)), c2, d1,
       [.pushFile, .chmodFile])
    | (.ok _, c2) => (.ok (), c2, d1, [.pushFile, .chmodFile])

/-- ScrcpyServerDeployer._verify_deployment: file-type probe expecting
"valid"; if the probe raises, fall back to the existence probe. -/
def ScrcpyServerDeployer.verifyDeployment (tr : AdbTransport) (dev : AndroidDevice)
    (now : Nat) (c : ADBConnection) : Bool × ADBConnection × List DeployOp :=
  match c.shell tr dev now ("file " ++ SERVER_REMOTE_PATH ++ " | grep -q " ++ sq
      ++ "Java" ++ sq ++ " && echo valid") with
  | (.ok r, c1) => (pyStrip r == "valid", c1, [.verifyFile])
  | (.error _, c1) =>
    let p := ScrcpyServerDeployer.isServerDeployed tr dev now c1
    (p.1, p.2, [.verifyFile, .verifyFallback])

/-- The outer except clause of deploy: a non-ScrcpyDeployError escaping
the body is wrapped. -/
def wrapDeployErr (e : PyExc) : PyExc :=
  if e.isDeployError then e
  else .scrcpyDeployError "Failed to deploy scrcpy-server" (some e.str)

/-- ScrcpyServerDeployer.deploy(connection): local artifact existence
check first, then the device-side presence probe (no-op success when
present), else push + chmod and post-push verification; every failure
surfaces as ScrcpyDeployError. localExists models
os.path.exists(settings.scrcpy_server_path). -/
def ScrcpyServerDeployer.deploy (tr : AdbTransport) (dev : AndroidDevice)
    (localExists : Bool) (now : Nat) (c : ADBConnection) :
    Except PyExc Unit × ADBConnection × AndroidDevice × List DeployOp :=
  if !localExists then
    (.error (wrapDeployErr (.scrcpyDeployError
        ("SCRCpy server file not found at " ++ ScrcpyConfigBuilder.getServerPath
          ++ ". Please ensure scrcpy-server.jar is available.") none)), c, dev, [])
  else
    match ScrcpyServerDeployer.isServerDeployed tr dev now c with
    | (true, c1) => (.ok (), c1, dev, [.checkDeployed])
    | (false, c1) =>
      match ScrcpyServerDeployer.pushServer tr dev now c1 ScrcpyConfigBuilder.getServerPath with
      | (.error e, c2, d2, ops) => (.error (wrapDeployErr e), c2, d2, .checkDeployed :: ops)
      | (.ok _, c2, d2, ops) =>
        match ScrcpyServerDeployer.verifyDeployment tr d2 now c2 with
        | (false, c3, vops) =>
          (.error (wrapDeployErr (.scrcpyDeployError
              "Failed to verify scrcpy-server deployment" none)), c3, d2,
           .checkDeployed :: ops ++ vops)
        | (true, c3, vops) => (.ok (), c3, d2, .checkDeployed :: ops ++ vops)

/-! ## ScrcpyProcessManager (backend/scws/core/scrcpy/process_manager.py) -/

/-- Observable lifecycle side effects of one manager operation. -/
inductive LifeEvent where
  | cleanup
deriving DecidableEq, Repr

/-- ScrcpyProcessManager instance state: bound connection, configuration
snapshot, lifecycle state, start timestamp, last error string, and
whether a relay (process) task is alive. -/
structure ScrcpyProcessManager where
  connection : ADBConnection
  config : ScrcpyConfig
  state : ScrcpyServerState
  startTime : Option Nat
  error : Option String
  processTask : Bool
deriving DecidableEq, Repr

/-- ScrcpyProcessManager.__init__(connection, config). -/
def ScrcpyProcessManager.init (connection : ADBConnection) (config : ScrcpyConfig) :
    ScrcpyProcessManager :=
  { connection := connection, config := config, state := .stopped,
    startTime := none, error := none, processTask := false }

/-- The except clause of start(): a ScrcpyStartError is re-raised as is,
anything else is wrapped into ScrcpyStartError(str(e), details=str(e)). -/
def wrapStartErr (e : PyExc) : PyExc :=
  if e.isStartError then e else .scrcpyStartError e.str (some e.str)

/-- ScrcpyProcessManager._cleanup(): cancels and awaits the process
task; the task slot is cleared. -/
def ScrcpyProcessManager.cleanup (m : ScrcpyProcessManager) :
    ScrcpyProcessManager × List LifeEvent :=
  ({ m with processTask := false }, [.cleanup])

/-- ScrcpyProcessManager.start(): no-op when already running; otherwise
enter Starting with the error cleared, deploy, then launch the relay
task (launchFault models asyncio.create_task raising, which
_start_process wraps into ScrcpyStartError("Failed to start scrcpy
process")); success enters Running and records the start time; any
failure records the error string, enters Error, runs cleanup and raises
a ScrcpyStartError. -/
def ScrcpyProcessManager.start (tr : AdbTransport) (dev : AndroidDevice)
    (localExists : Bool) (now : Nat) (launchFault : Option PyExc)
    (m : ScrcpyProcessManager) :
    Except PyExc Unit × ScrcpyProcessManager × AndroidDevice × List LifeEvent :=
  if m.state = .running then (.ok (), m, dev, [])
  else
    let m1 := { m with state := .starting, error := none }
    match ScrcpyServerDeployer.deploy tr dev localExists now m1.connection with
    | (.error e, c2, d2, _) =>
      let m2 := { m1 with connection := c2, state := .error, error := some e.str }
      let p := m2.cleanup
      (.error (wrapStartErr e), p.1, d2, p.2)
    | (.ok _, c2, d2, _) =>
      match launchFault with
      | some lf =>
        let e2 : PyExc := .scrcpyStartError "Failed to start scrcpy process" (some lf.str)
        let m2 := { m1 with connection := c2, state := .error, error := some e2.str }
        let p := m2.cleanup
        (.error (wrapStartErr e2), p.1, d2, p.2)
      | none =>
        (.ok (),
         { m1 with connection := c2, processTask := true, state := .running,
                   startTime := some now }, d2, [])

/-- ScrcpyProcessManager.stop(): no-op when already stopped; otherwise
enter Stopping, run cleanup, then Stopped with the start time cleared
(the error field is left as is). -/
def ScrcpyProcessManager.stop (m : ScrcpyProcessManager) :
    ScrcpyProcessManager × List LifeEvent :=
  if m.state = .stopped then (m, [])
  else
    let m1 := { m with state := .stopping }
    let p := m1.cleanup
    ({ p.1 with state := .stopped, startTime := none }, p.2)

/-- ScrcpyProcessManager._handle_crash(error): the relay task caught the
server process failing; record the error, enter Error, run cleanup. -/
def ScrcpyProcessManager.handleCrash (e : PyExc) (m : ScrcpyProcessManager) :
    ScrcpyProcessManager × List LifeEvent :=
  let m1 := { m with state := .error, error := some e.str }
  m1.cleanup

/-- ScrcpyProcessManager._run_server_process(command): the relay task
body; runs the launch command over the connection and, if the shell
raises, converts it into a crash transition instead of letting it
escape the task. -/
def ScrcpyProcessManager.runServerProcess (tr : AdbTransport) (dev : AndroidDevice)
    (now : Nat) (m : ScrcpyProcessManager) : ScrcpyProcessManager × List LifeEvent :=
  match m.connection.shell tr dev now (ScrcpyConfigBuilder.buildCommand m.config) with
  | (.ok _, c1) => ({ m with connection := c1 }, [])
  | (.error e, c1) => ScrcpyProcessManager.handleCrash e { m with connection := c1 }

/-! ## Association lists

Python dicts are embedded as association lists in insertion order; keys
are unique by construction (assignment replaces in place, deletion
removes the key). -/

/-- dict.get(k). -/
def alookup {α : Type} (k : String) : List (String × α) → Option α
  | [] => none
  | (k2, v) :: rest => if k2 = k then some v else alookup k rest

/-- dict[k] = v: replace in place, or append as the newest key. -/
def aset {α : Type} (k : String) (v : α) : List (String × α) → List (String × α)
  | [] => [(k, v)]
  | (k2, v2) :: rest => if k2 = k then (k, v) :: rest else (k2, v2) :: aset k v rest

/-- del dict[k] (keys are unique, so removing every binding of k is the
same as removing the one binding; on an absent key this is the identity,
matching the guarded deletes in the source). -/
def adel {α : Type} (k : String) : List (String × α) → List (String × α)
  | [] => []
  | (k2, v2) :: rest => if k2 = k then adel k rest else (k2, v2) :: adel k rest

/-! ## ADBDeviceManager (backend/scws/core/adb/device_manager.py) -/

/-- Registry state: the connection map and the session (device) map. -/
structure ADBDeviceManager where
  connections : List (String × ADBConnection)
  devices : List (String × ADBDevice)
deriving Repr

/-- ADBDeviceManager.__init__. -/
def ADBDeviceManager.empty : ADBDeviceManager :=
  { connections := [], devices := [] }

/-- ADBDeviceManager.list_devices(): the session map values. -/
def ADBDeviceManager.listDevices (m : ADBDeviceManager) : List ADBDevice :=
  m.devices.map Prod.snd

/-- ADBDeviceManager.get_device(serial). -/
def ADBDeviceManager.getDevice (m : ADBDeviceManager) (serial : String) :
    Option ADBDevice :=
  alookup serial m.devices

/-- ADBDeviceManager.get_connection(serial): raises
ADBDeviceNotFoundError when the serial has no registered connection. -/
def ADBDeviceManager.getConnection (m : ADBDeviceManager) (serial : String) :
    Except PyExc ADBConnection :=
  match alookup serial m.connections with
  | some c => .ok c
  | none => .error (.adbDeviceNotFoundError serial)

/-- The fresh-connection path of connect_to_device (lines 89-102): build
a connection from settings, handshake, query device info, then publish
connection and session; a failure at either step propagates unchanged
and publishes nothing. -/
def ADBDeviceManager.connectFreshPath (tr : AdbTransport) (dev : AndroidDevice)
    (now : Nat) (m : ADBDeviceManager) (serial : String) :
    Except PyExc ADBConnection × ADBDeviceManager :=
  let c0 := ADBConnection.init serial settings.adbHost settings.adbPort
  match ADBConnection.connect tr now c0 with
  | (.error e, _) => (.error e, m)
  | (.ok _, c1) =>
    match ADBConnection.getDeviceInfo tr dev now c1 with
    | (.error e, _) => (.error e, m)
    | (.ok info, c2) =>
      (.ok c2, { connections := aset serial c2 m.connections,
                 devices := aset serial info m.devices })

/-- ADBDeviceManager.connect_to_device(serial): an existing connection
that is still connected is returned as is; otherwise the fresh path
runs. -/
def ADBDeviceManager.connectToDevice (tr : AdbTransport) (dev : AndroidDevice)
    (now : Nat) (m : ADBDeviceManager) (serial : String) :
    Except PyExc ADBConnection × ADBDeviceManager :=
  match alookup serial m.connections with
  | some ex =>
    if ex.isConnected then (.ok ex, m)
    else ADBDeviceManager.connectFreshPath tr dev now m serial
  | none => ADBDeviceManager.connectFreshPath tr dev now m serial

/-- ADBDeviceManager.disconnect_from_device(serial): close and drop a
registered connection (a failing close re-raises before anything is
removed), then drop the session entry; with no registered connection
only the session entry is dropped. -/
def ADBDeviceManager.disconnectFromDevice (tr : AdbTransport) (m : ADBDeviceManager)
    (serial : String) : Except PyExc Unit × ADBDeviceManager :=
  match alookup serial m.connections with
  | some conn =>
    match ADBConnection.disconnect tr conn with
    | (.error e, _) => (.error e, m)
    | (.ok _, _) =>
      (.ok (), { connections := adel serial m.connections,
                 devices := adel serial m.devices })
  | none => (.ok (), { m with devices := adel serial m.devices })

/-- The eviction loop of poll_devices: walk the gathered (serial,
health) results in order and disconnect each unhealthy device; a raising
disconnect is caught by the outer except of poll_devices, which aborts
the remainder of the cycle. -/
def ADBDeviceManager.evictUnhealthy (tr : AdbTransport) :
    List (String × Bool) → ADBDeviceManager → ADBDeviceManager
  | [], m => m
  | (serial, healthy) :: rest, m =>
    if healthy then ADBDeviceManager.evictUnhealthy tr rest m
    else
      match ADBDeviceManager.disconnectFromDevice tr m serial with
      | (.ok _, m2) => ADBDeviceManager.evictUnhealthy tr rest m2
      | (.error _, m2) => m2

/-- ADBDeviceManager.poll_devices(): health-check every tracked
connection concurrently against the pre-cycle state (the checks mutate
the connection objects in place, reflected by rebuilding the map with
the post-check connections), then disconnect exactly the entries whose
gathered result is the boolean False (health_check only ever returns a
bool, so the isinstance guard never skips an entry). -/
def ADBDeviceManager.pollDevices (tr : AdbTransport) (dev : AndroidDevice) (now : Nat)
    (m : ADBDeviceManager) : ADBDeviceManager :=
  let checked := m.connections.map
    (fun p => (p.1, ADBConnection.healthCheck tr dev now p.2))
  let m1 := { m with connections := checked.map (fun p => (p.1, p.2.2)) }
  ADBDeviceManager.evictUnhealthy tr (checked.map (fun p => (p.1, p.2.1))) m1

/-! ## ConnectionManager (backend/scws/ws/router.py)

The WebSocket fan-out manager.  A WebSocket transport is modelled by an
identity, its client_state, and whether its send calls throw; per-serial
subscriber sets are embedded as duplicate-free lists in insertion
order. -/

/-- fastapi WebSocketState. -/
inductive WSState where
  | connecting | connected | disconnected
deriving DecidableEq, Repr

/-- One WebSocket transport handle. -/
structure WS where
  id : Nat
  clientState : WSState
  sendJsonFault : Bool
  sendBytesFault : Bool
deriving DecidableEq, Repr

/-- Python set.add on the list embedding. -/
def setAdd (ws : WS) (l : List WS) : List WS :=
  if ws ∈ l then l else l ++ [ws]

/-- Fan-out manager state: the per-serial subscriber sets. -/
structure ConnectionManager where
  active : List (String × List WS)
deriving DecidableEq, Repr

def ConnectionManager.empty : ConnectionManager := { active := [] }

/-- The subscriber set currently registered for a serial (empty when the
serial has no entry). -/
def ConnectionManager.subsOf (m : ConnectionManager) (serial : String) : List WS :=
  (alookup serial m.active).getD []

/-- ConnectionManager.connect(websocket, serial): after the accept, an
absent serial gets a fresh empty set, then the transport is added
(set semantics: adding a member already present changes nothing). -/
def ConnectionManager.connect (m : ConnectionManager) (ws : WS) (serial : String) :
    ConnectionManager :=
  let cur := match alookup serial m.active with
             | some s => s
             | none => []
  { active := aset serial (setAdd ws cur) m.active }

/-- ConnectionManager.disconnect(websocket, serial): with no entry for
the serial, nothing happens; otherwise the transport is discarded and an
emptied set prunes the serial entry. -/
def ConnectionManager.disconnect (m : ConnectionManager) (ws : WS) (serial : String) :
    ConnectionManager :=
  match alookup serial m.active with
  | none => m
  | some s =>
    let s2 := s.filter (fun w => !(w = ws))
    if s2.isEmpty then { active := adel serial m.active }
    else { active := aset serial s2 m.active }

/-- ConnectionManager.send_message(message, serial): a serial with no
entry is a silent no-op; otherwise iterate the current set, sending the
JSON payload to every transport whose client_state is CONNECTED (a
throwing send is caught) and collecting every non-open or throwing
transport; after the pass completes, the collected transports are
detached.  Returns the post-broadcast state and the ids of the
transports a send was attempted on. -/
def ConnectionManager.sendMessage (m : ConnectionManager) (serial : String) :
    ConnectionManager × List Nat :=
  match alookup serial m.active with
  | none => (m, [])
  | some subs =>
    let sent := (subs.filter (fun w => w.clientState = .connected)).map WS.id
    let dropped := subs.filter
      (fun w => !(w.clientState = .connected) || w.sendJsonFault)
    (dropped.foldl (fun acc w => acc.disconnect w serial) m, sent)

/-- ConnectionManager.send_binary(data, serial): identical fan-out logic
with send_bytes. -/
def ConnectionManager.sendBinary (m : ConnectionManager) (serial : String) :
    ConnectionManager × List Nat :=
  match alookup serial m.active with
  | none => (m, [])
  | some subs =>
    let sent := (subs.filter (fun w => w.clientState = .connected)).map WS.id
    let dropped := subs.filter
      (fun w => !(w.clientState = .connected) || w.sendBytesFault)
    (dropped.foldl (fun acc w => acc.disconnect w serial) m, sent)

/-! ## Invariants and concrete fixtures -/

/-- The fan-out map invariant: serial keys are unique, and every
registered serial maps to a non-empty, duplicate-free subscriber set. -/
def InvCM (m : ConnectionManager) : Prop :=
  (m.active.map Prod.fst).Nodup ∧ ∀ p ∈ m.active, p.2 ≠ [] ∧ p.2.Nodup

/-- A fault-free transport. -/
def trOK : AdbTransport := {}

/-- A transport whose every shell command raises. -/
def trDown : AdbTransport := { shellFault := fun _ => some (.oserror "connection lost") }

/-- A transport whose handshake raises. -/
def trConnFail : AdbTransport := { connectFault := some (.oserror "boom") }

/-- A transport where the health echo raises and closing raises. -/
def trUnhealthy : AdbTransport :=
  { shellFault := fun cmd => if cmd = "echo ping" then some (.oserror "timeout") else none,
    closeFault := some (.oserror "close failed") }

/-- A pristine device without the server artifact. -/
def dev0 : AndroidDevice := {}

/-- A device that already carries the server artifact. -/
def devHas : AndroidDevice := { hasServer := true }

/-- A live connection for serial dev-1. -/
def connFx : ADBConnection :=
  { serial := "dev-1", host := "127.0.0.1", port := 5037, deviceHandle := true,
    connected := true, connectionTime := some 0, lastActivity := some 0 }

/-- A live connection for serial dev-2. -/
def connFx2 : ADBConnection := { connFx with serial := "dev-2" }

/-- A published session for a serial. -/
def sessFx (serial : String) : ADBDevice :=
  { id := serial, serial := serial, model := "Pixel 7", state := .device,
    transportType := .usb, connectionTime := 0, manufacturer := some "Google",
    androidVersion := some "14", resolution := some { width := 1080, height := 2400 } }

/-- A registry tracking dev-1 and dev-2. -/
def mgrFx : ADBDeviceManager :=
  { connections := [("dev-1", connFx), ("dev-2", connFx2)],
    devices := [("dev-1", sessFx "dev-1"), ("dev-2", sessFx "dev-2")] }

/-- The deploy error message for a missing local artifact with the
default settings path. -/
def msgNotFound : String :=
  "SCRCpy server file not found at /opt/scrcpy-server.jar. Please ensure scrcpy-server.jar is available."

/-- A fresh lifecycle manager over the dev-1 connection. -/
def pmFresh : ScrcpyProcessManager := ScrcpyProcessManager.init connFx {}

/-- The manager after a successful start at tick 5. -/
def pmRun : ScrcpyProcessManager := (pmFresh.start trOK devHas true 5 none).2.1

/-- The manager after the relay task observed the server process dying
at tick 6 (reachable: _run_server_process catches the shell error and
calls _handle_crash). -/
def pmCrashed : ScrcpyProcessManager := (pmRun.runServerProcess trDown devHas 6).1

/-- A failing start() (missing local artifact) on the crashed manager at
tick 7. -/
def c1FailTrace : Except PyExc Unit × ScrcpyProcessManager × AndroidDevice × List LifeEvent :=
  pmCrashed.start trOK dev0 false 7 none

/-- A failing start() (missing local artifact) on the fresh manager at
tick 7. -/
def c1FreshFail : Except PyExc Unit × ScrcpyProcessManager × AndroidDevice × List LifeEvent :=
  pmFresh.start trOK dev0 false 7 none

/-- A connect attempt on an empty registry whose handshake raises. -/
def c2FailTrace : Except PyExc ADBConnection × ADBDeviceManager :=
  ADBDeviceManager.connectToDevice trConnFail dev0 0 ADBDeviceManager.empty "dev-1"

/-- One poll cycle over the two-device registry where every health echo
raises (both checks report false) and the transport close raises. -/
def c3PollTrace : ADBDeviceManager := mgrFx.pollDevices trUnhealthy dev0 9

/-- A connection that is tracked but no longer connected (its health
check reports false without raising). -/
def connOff : ADBConnection := { connFx with serial := "dev-3", connected := false }

/-- A registry with one healthy and one unhealthy device. -/
def mgrMix : ADBDeviceManager :=
  { connections := [("dev-1", connFx), ("dev-3", connOff)],
    devices := [("dev-1", sessFx "dev-1"), ("dev-3", sessFx "dev-3")] }

/-- A deploy whose device already has the artifact but whose local
artifact is missing. -/
def c4FailTrace : Except PyExc Unit × ADBConnection × AndroidDevice × List DeployOp :=
  ScrcpyServerDeployer.deploy trOK devHas false 3 connFx

/-- An open, healthy subscriber. -/
def wsA : WS := { id := 1, clientState := .connected, sendJsonFault := false,
                  sendBytesFault := false }

/-- A subscriber whose transport is no longer open. -/
def wsB : WS := { id := 2, clientState := .disconnected, sendJsonFault := false,
                  sendBytesFault := false }

/-- An open subscriber whose send calls throw. -/
def wsC : WS := { id := 3, clientState := .connected, sendJsonFault := true,
                  sendBytesFault := true }

/-- A fan-out manager with three subscribers on dev-1. -/
def cmFx : ConnectionManager := { active := [("dev-1", [wsA, wsB, wsC])] }

/-! ## Association list lemmas -/

theorem alookup_aset_self {α : Type} (k : String) (v : α) (l : List (String × α)) :
    alookup k (aset k v l) = some v := by
  induction l with
  | nil => simp [aset, alookup]
  | cons p rest ih =>
    by_cases h : p.1 = k
    · simp [aset, alookup, h]
    · simp [aset, alookup, h, ih]

theorem alookup_aset_ne {α : Type} (k k2 : String) (v : α) (l : List (String × α))
    (h : ¬ k2 = k) : alookup k2 (aset k v l) = alookup k2 l := by
  have hk : ¬ k = k2 := fun hh => h hh.symm
  induction l with
  | nil => simp [aset, alookup, hk]
  | cons p rest ih =>
    obtain ⟨a, b⟩ := p
    by_cases hp : a = k
    · have hp2 : ¬ a = k2 := by rw [hp]; exact hk
      simp [aset, alookup, hp, hk, hp2]
    · by_cases hq : a = k2 <;> simp [aset, alookup, hp, hq, h, ih]

theorem alookup_adel_self {α : Type} (k : String) (l : List (String × α)) :
    alookup k (adel k l) = none := by
  induction l with
  | nil => simp [adel, alookup]
  | cons p rest ih =>
    obtain ⟨a, b⟩ := p
    by_cases h : a = k
    · simpa [adel, alookup, h] using ih
    · simpa [adel, alookup, h] using ih

theorem alookup_adel_ne {α : Type} (k k2 : String) (l : List (String × α))
    (h : ¬ k2 = k) : alookup k2 (adel k l) = alookup k2 l := by
  have hk : ¬ k = k2 := fun hh => h hh.symm
  induction l with
  | nil => simp [adel, alookup]
  | cons p rest ih =>
    obtain ⟨a, b⟩ := p
    by_cases hp : a = k
    · have hp2 : ¬ a = k2 := by rw [hp]; exact hk
      simp [adel, alookup, hp, hp2, hk, ih]
    · by_cases hq : a = k2 <;> simp [adel, alookup, hp, hq, h, ih]

theorem alookup_some_mem {α : Type} {k : String} {v : α} {l : List (String × α)}
    (h : alookup k l = some v) : (k, v) ∈ l := by
  induction l with
  | nil => simp [alookup] at h
  | cons p rest ih =>
    obtain ⟨a, b⟩ := p
    by_cases hp : a = k
    · simp [alookup, hp] at h
      subst hp
      subst h
      exact List.mem_cons_self _ _
    · simp [alookup, hp] at h
      exact List.mem_cons_of_mem _ (ih h)

theorem alookup_none_not_mem {α : Type} {k : String} {l : List (String × α)}
    (h : alookup k l = none) : ∀ v : α, (k, v) ∉ l := by
  induction l with
  | nil => simp
  | cons p rest ih =>
    obtain ⟨a, b⟩ := p
    by_cases hp : a = k
    · simp [alookup, hp] at h
    · simp [alookup, hp] at h
      intro v hv
      rcases List.mem_cons.mp hv with h1 | h1
      · exact hp (by simp [Prod.ext_iff] at h1; exact h1.1.symm)
      · exact ih h v h1

theorem alookup_none_not_key {α : Type} {k : String} {l : List (String × α)}
    (h : alookup k l = none) : k ∉ l.map Prod.fst := by
  intro hk
  rcases List.mem_map.mp hk with ⟨p, hp, hfst⟩
  exact alookup_none_not_mem h p.2 (by obtain ⟨a, b⟩ := p; simp_all)

theorem mem_aset {α : Type} {p : String × α} {k : String} {v : α}
    {l : List (String × α)} (h : p ∈ aset k v l) : p = (k, v) ∨ p ∈ l := by
  induction l with
  | nil => simpa [aset] using h
  | cons q rest ih =>
    obtain ⟨a, b⟩ := q
    by_cases hq : a = k
    · simp only [aset, hq, if_pos] at h
      rcases List.mem_cons.mp h with h1 | h1
      · exact Or.inl h1
      · exact Or.inr (List.mem_cons_of_mem _ h1)
    · simp only [aset, hq, if_neg, not_false_iff] at h
      rcases List.mem_cons.mp h with h1 | h1
      · exact Or.inr (List.mem_cons.mpr (Or.inl h1))
      · rcases ih h1 with h2 | h2
        · exact Or.inl h2
        · exact Or.inr (List.mem_cons_of_mem _ h2)

theorem adel_sublist {α : Type} (k : String) (l : List (String × α)) :
    List.Sublist (adel k l) l := by
  induction l with
  | nil => simp [adel]
  | cons p rest ih =>
    obtain ⟨a, b⟩ := p
    by_cases hp : a = k
    · simp only [adel, hp, if_pos]
      exact ih.cons _
    · simp only [adel, hp, if_neg, not_false_iff]
      exact ih.cons₂ _

theorem mem_adel {α : Type} {p : String × α} {k : String} {l : List (String × α)}
    (h : p ∈ adel k l) : p ∈ l :=
  (adel_sublist k l).mem h

theorem aset_map_fst {α : Type} (k : String) (v : α) (l : List (String × α)) :
    (aset k v l).map Prod.fst =
      if (alookup k l).isSome then l.map Prod.fst else l.map Prod.fst ++ [k] := by
  induction l with
  | nil => simp [aset, alookup]
  | cons p rest ih =>
    obtain ⟨a, b⟩ := p
    by_cases hp : a = k
    · simp [aset, alookup, hp]
    · have h1 : aset k v ((a, b) :: rest) = (a, b) :: aset k v rest := by
        simp [aset, hp]
      have h2 : alookup k ((a, b) :: rest) = alookup k rest := by
        simp [alookup, hp]
      rw [h1, List.map_cons, ih, h2]
      by_cases hs : (alookup k rest).isSome <;> simp [hs]

theorem aset_keys_nodup {α : Type} {k : String} {v : α} {l : List (String × α)}
    (h : (l.map Prod.fst).Nodup) : ((aset k v l).map Prod.fst).Nodup := by
  rw [aset_map_fst]
  cases hl : alookup k l with
  | some v2 => simpa [hl] using h
  | none =>
    have hk : k ∉ l.map Prod.fst := alookup_none_not_key hl
    simp only [hl, Option.isSome_none, Bool.false_eq_true, if_false]
    refine List.Nodup.append h (List.nodup_singleton k) ?_
    intro a ha hb
    rw [List.mem_singleton] at hb
    exact hk (hb ▸ ha)

theorem adel_keys_nodup {α : Type} {k : String} {l : List (String × α)}
    (h : (l.map Prod.fst).Nodup) : ((adel k l).map Prod.fst).Nodup :=
  List.Nodup.sublist (List.Sublist.map Prod.fst (adel_sublist k l)) h

theorem aset_self_of_lookup {α : Type} {k : String} {v : α} {l : List (String × α)}
    (h : alookup k l = some v) : aset k v l = l := by
  induction l with
  | nil => simp [alookup] at h
  | cons p rest ih =>
    obtain ⟨a, b⟩ := p
    by_cases hp : a = k
    · simp [alookup, hp] at h
      subst hp
      subst h
      simp [aset]
    · simp [alookup, hp] at h
      simp [aset, hp, ih h]

theorem alookup_map_value {α β : Type} (g : α → β) {k : String} {v : α}
    {l : List (String × α)} (hnd : (l.map Prod.fst).Nodup) (h : (k, v) ∈ l) :
    alookup k (l.map (fun p => (p.1, g p.2))) = some (g v) := by
  induction l with
  | nil => simp at h
  | cons p rest ih =>
    have hnd2 : p.1 ∉ rest.map Prod.fst ∧ (rest.map Prod.fst).Nodup := by
      rw [List.map_cons, List.nodup_cons] at hnd
      exact hnd
    rcases List.mem_cons.mp h with h1 | h1
    · simp [alookup, ← h1]
    · have hk : k ∈ rest.map Prod.fst := List.mem_map.mpr ⟨(k, v), h1, rfl⟩
      have hp : ¬ p.1 = k := fun hh => hnd2.1 (hh ▸ hk)
      simp only [List.map_cons, alookup, hp, if_neg, not_false_iff]
      exact ih hnd2.2 h1

/-! ## Python split lemmas (for the port derivation) -/

theorem takeWhile_eq_self_of_not_mem (sep : Char) (l : List Char) (h : sep ∉ l) :
    l.takeWhile (fun c => !(c = sep)) = l := by
  induction l with
  | nil => rfl
  | cons c cs ih =>
    have hc : ¬ c = sep := fun hh => h (hh ▸ List.mem_cons_self c cs)
    have h2 : sep ∉ cs := fun hh => h (List.mem_cons_of_mem _ hh)
    simp [List.takeWhile_cons, hc, ih h2]

theorem pySplitChar_of_not_mem (sep : Char) (l : List Char) (h : sep ∉ l) :
    pySplitChar sep l = [l] := by
  induction l with
  | nil => rfl
  | cons c cs ih =>
    have hc : ¬ c = sep := fun hh => h (hh ▸ List.mem_cons_self c cs)
    have h2 : sep ∉ cs := fun hh => h (List.mem_cons_of_mem _ hh)
    simp [pySplitChar, hc, ih h2]

theorem pySplitChar_of_mem (sep : Char) (l : List Char) (h : sep ∈ l) :
    pySplitChar sep l =
      l.takeWhile (fun c => !(c = sep)) ::
        pySplitChar sep ((l.dropWhile (fun c => !(c = sep))).drop 1) := by
  induction l with
  | nil => simp at h
  | cons c cs ih =>
    by_cases hc : c = sep
    · subst hc
      simp [pySplitChar, List.takeWhile_cons, List.dropWhile_cons]
    · have h2 : sep ∈ cs := by
        rcases List.mem_cons.mp h with h1 | h1
        · exact absurd h1.symm hc
        · exact h1
      simp [pySplitChar, hc, List.takeWhile_cons, List.dropWhile_cons, ih h2]

theorem pySplitChar_headD (sep : Char) (l : List Char) :
    (pySplitChar sep l).headD [] = l.takeWhile (fun c => !(c = sep)) := by
  by_cases h : sep ∈ l
  · rw [pySplitChar_of_mem sep l h]
    rfl
  · rw [pySplitChar_of_not_mem sep l h, takeWhile_eq_self_of_not_mem sep l h]
    rfl

theorem getD_zero_eq_headD (xs : List (List Char)) : xs.getD 0 [] = xs.headD [] := by
  cases xs <;> rfl

theorem pySplitChar_getD_one (sep : Char) (l : List Char) (h : sep ∈ l) :
    (pySplitChar sep l).getD 1 [] =
      ((l.dropWhile (fun c => !(c = sep))).drop 1).takeWhile (fun c => !(c = sep)) := by
  rw [pySplitChar_of_mem sep l h]
  show (pySplitChar sep ((l.dropWhile (fun c => !(c = sep))).drop 1)).getD 0 [] = _
  rw [getD_zero_eq_headD, pySplitChar_headD]

/-! ## Claim theorems -/

/-- C9: constructing a Connection never raises from port derivation
(pyParsePortFromSerial is total); when the serial contains a colon and
the text between the first and second colon parses as a Python int, the
port is that int, otherwise (including serials like host: and host:abc,
and serials with no colon) the port silently falls back to the supplied
default, and the constructor's port field is exactly this derivation. -/
theorem c9_port_derivation (serial : List Char) (defaultPort : Int) :
    (':' ∉ serial → pyParsePortFromSerial serial defaultPort = defaultPort) ∧
    (':' ∈ serial →
        pyParsePortFromSerial serial defaultPort =
          (pyInt? (betweenFirstAndSecondColon serial)).getD defaultPort) ∧
    (∀ host : String, (ADBConnection.init (String.mk serial) host defaultPort).port =
        pyParsePortFromSerial serial defaultPort) := by
  refine ⟨?_, ?_, ?_⟩
  · intro h
    simp [pyParsePortFromSerial, h]
  · intro h
    simp only [pyParsePortFromSerial]
    rw [if_pos (show serial.contains ':' = true by simp [h])]
    rw [pySplitChar_getD_one ':' serial h]
    simp only [betweenFirstAndSecondColon]
    cases pyInt? (((serial.dropWhile (fun c => !(c = ':'))).drop 1).takeWhile
        (fun c => !(c = ':'))) <;> rfl
  · intro host
    rfl

/-- C9 witness: concrete derivations through the theorem: a numeric
embedded port is used, a non-numeric or empty port text and a serial
without a colon fall back to the default. -/
theorem c9_witness :
    pyParsePortFromSerial "host:5555".toList 5037 = 5555 ∧
    pyParsePortFromSerial "host:abc".toList 5037 = 5037 ∧
    pyParsePortFromSerial "host:".toList 5037 = 5037 ∧
    pyParsePortFromSerial "emulator-5554".toList 5037 = 5037 := by
  have h1 := (c9_port_derivation "host:5555".toList 5037).2.1 (by decide)
  have h2 := (c9_port_derivation "host:abc".toList 5037).2.1 (by decide)
  have h3 := (c9_port_derivation "host:".toList 5037).2.1 (by decide)
  have h4 := (c9_port_derivation "emulator-5554".toList 5037).1 (by decide)
  refine ⟨?_, ?_, ?_, ?_⟩
  · rw [h1]; decide
  · rw [h2]; decide
  · rw [h3]; decide
  · rw [h4]

/-- C6: start() on an already-Running manager is a no-op raising no
error and leaving the whole manager state (state, start time, error,
configuration) unchanged, and stop() on an already-Stopped manager is a
no-op leaving the manager unchanged. -/
theorem c6_idempotent_noop :
    (∀ (tr : AdbTransport) (dev : AndroidDevice) (localExists : Bool) (now : Nat)
        (launchFault : Option PyExc) (m : ScrcpyProcessManager),
        m.state = .running →
        m.start tr dev localExists now launchFault = (.ok (), m, dev, [])) ∧
    (∀ m : ScrcpyProcessManager, m.state = .stopped → m.stop = (m, [])) := by
  constructor
  · intro tr dev le now lf m h
    simp [ScrcpyProcessManager.start, h]
  · intro m h
    simp [ScrcpyProcessManager.stop, h]

/-- C6 witness: the concrete running manager is untouched by a second
start() and the concrete stopped manager is untouched by stop(). -/
theorem c6_witness :
    pmRun.state = ScrcpyServerState.running ∧
    pmRun.start trOK dev0 true 9 none = (.ok (), pmRun, dev0, []) ∧
    pmFresh.state = ScrcpyServerState.stopped ∧
    pmFresh.stop = (pmFresh, []) :=
  ⟨rfl, c6_idempotent_noop.1 trOK dev0 true 9 none pmRun rfl,
   rfl, c6_idempotent_noop.2 pmFresh rfl⟩

theorem wrapStartErr_str (e : PyExc) : (wrapStartErr e).str = e.str := by
  by_cases h : e.isStartError = true <;> simp [wrapStartErr, h, PyExc.str]

theorem wrapStartErr_isStartError (e : PyExc) : (wrapStartErr e).isStartError = true := by
  unfold wrapStartErr
  by_cases h : e.isStartError = true
  · rw [if_pos h]
    exact h
  · rw [if_neg h]
    rfl

/-- C1 (amended): when start() fails during the Starting phase (deploy
or launch raises), the manager ends in Error with the error field set to
the failure message and start_time unchanged by the failed start (hence
still unset whenever the manager entered start() with no recorded start
time, e.g. from Stopped, but not cleared if an earlier crash from
Running left it set); the failure surfaces to the caller as a
ScrcpyStartError (ProcessStartFailed) and cleanup has run; a subsequent
stop() yields Stopped with start_time cleared; and any successful
start() leaves the recorded error cleared. -/
theorem c1_start_failure (tr : AdbTransport) (dev : AndroidDevice)
    (localExists : Bool) (now : Nat) (launchFault : Option PyExc)
    (m : ScrcpyProcessManager) (e : PyExc)
    (hrun : ¬ m.state = .running)
    (herr : (m.start tr dev localExists now launchFault).1 = .error e) :
    (m.start tr dev localExists now launchFault).2.1.state = .error ∧
    (m.start tr dev localExists now launchFault).2.1.error = some e.str ∧
    (m.start tr dev localExists now launchFault).2.1.startTime = m.startTime ∧
    e.isStartError = true ∧
    LifeEvent.cleanup ∈ (m.start tr dev localExists now launchFault).2.2.2 ∧
    ((m.start tr dev localExists now launchFault).2.1.stop).1.state = .stopped ∧
    ((m.start tr dev localExists now launchFault).2.1.stop).1.startTime = none ∧
    (∀ (tr2 : AdbTransport) (dev2 : AndroidDevice) (le2 : Bool) (now2 : Nat)
        (lf2 : Option PyExc) (m2 : ScrcpyProcessManager),
        ¬ m2.state = .running →
        (m2.start tr2 dev2 le2 now2 lf2).1 = .ok () →
        (m2.start tr2 dev2 le2 now2 lf2).2.1.error = none) := by
  have hgen : ∀ (tr2 : AdbTransport) (dev2 : AndroidDevice) (le2 : Bool) (now2 : Nat)
      (lf2 : Option PyExc) (m2 : ScrcpyProcessManager),
      ¬ m2.state = .running →
      (m2.start tr2 dev2 le2 now2 lf2).1 = .ok () →
      (m2.start tr2 dev2 le2 now2 lf2).2.1.error = none := by
    intro tr2 dev2 le2 now2 lf2 m2 h2 hok
    simp only [ScrcpyProcessManager.start, if_neg h2] at hok ⊢
    rcases hD : ScrcpyServerDeployer.deploy tr2 dev2 le2 now2
        { m2 with state := ScrcpyServerState.starting, error := none }.connection
      with ⟨res, c2, d2, ops⟩
    rw [hD] at hok ⊢
    cases res with
    | error e0 => simp [ScrcpyProcessManager.cleanup] at hok
    | ok u =>
      cases lf2 with
      | some lf => simp [ScrcpyProcessManager.cleanup] at hok
      | none => simp
  simp only [ScrcpyProcessManager.start, if_neg hrun] at herr ⊢
  rcases hD : ScrcpyServerDeployer.deploy tr dev localExists now
      { m with state := ScrcpyServerState.starting, error := none }.connection
    with ⟨res, c2, d2, ops⟩
  rw [hD] at herr ⊢
  cases res with
  | error e0 =>
    simp only [ScrcpyProcessManager.cleanup, Except.error.injEq] at herr
    subst herr
    refine ⟨rfl, by simp [ScrcpyProcessManager.cleanup, wrapStartErr_str], by simp [ScrcpyProcessManager.cleanup], wrapStartErr_isStartError e0, ?_, ?_, ?_, hgen⟩
    · simp [ScrcpyProcessManager.cleanup]
    · simp [ScrcpyProcessManager.cleanup, ScrcpyProcessManager.stop]
    · simp [ScrcpyProcessManager.cleanup, ScrcpyProcessManager.stop]
  | ok u =>
    cases launchFault with
    | some lf =>
      simp only [ScrcpyProcessManager.cleanup, Except.error.injEq] at herr
      subst herr
      refine ⟨rfl, by simp [ScrcpyProcessManager.cleanup, wrapStartErr_str], by simp [ScrcpyProcessManager.cleanup], wrapStartErr_isStartError _, ?_, ?_, ?_, hgen⟩
      · simp [ScrcpyProcessManager.cleanup]
      · simp [ScrcpyProcessManager.cleanup, ScrcpyProcessManager.stop]
      · simp [ScrcpyProcessManager.cleanup, ScrcpyProcessManager.stop]
    | none => simp at herr

/-- C1 counterexample: the claim requires start_time to be unset after a
failed start(), but a manager whose relay task observed a crash while
Running keeps its recorded start time into Error, and a subsequent
failing start() leaves it set: after this concrete failed start() the
manager is in Error with start_time still the old tick 5. -/
theorem c1_counterexample :
    pmCrashed.state = ScrcpyServerState.error ∧
    pmCrashed.startTime = some 5 ∧
    c1FailTrace.1 = Except.error (PyExc.scrcpyStartError msgNotFound (some msgNotFound)) ∧
    c1FailTrace.2.1.state = ScrcpyServerState.error ∧
    c1FailTrace.2.1.startTime = some 5 :=
  ⟨rfl, rfl, rfl, rfl, rfl⟩

/-- C1 witness: the amended theorem applied to the fresh stopped manager
with a missing local artifact: the failed start ends in Error with
start_time unset and stop() then yields Stopped. -/
theorem c1_witness :
    c1FreshFail.2.1.state = ScrcpyServerState.error ∧
    c1FreshFail.2.1.startTime = none ∧
    (c1FreshFail.2.1.stop).1.state = ScrcpyServerState.stopped ∧
    (c1FreshFail.2.1.stop).1.startTime = none := by
  have h := c1_start_failure trOK dev0 false 7 none pmFresh
      (PyExc.scrcpyStartError msgNotFound (some msgNotFound))
      (by decide) (by rfl)
  exact ⟨h.1, (h.2.2.1).trans rfl, h.2.2.2.2.2.1, h.2.2.2.2.2.2.1⟩

/-- C7 (amended): shell (execute) and push/pull fail with
ADBDeviceOfflineError (DeviceOffline) whenever the connection is not
connected; a connected shell stamps last-activity and returns the
device output on success; a failing transport command propagates its own
exception unchanged -- utils/errors.py defines no CommandFailed class
and ADBConnection.shell re-raises the raw error; health_check is total
(Bool-valued, never raises), returns false while disconnected or on any
shell error, and returns true exactly after a successful round trip. -/
theorem c7_connection_commands (tr : AdbTransport) (dev : AndroidDevice) (now : Nat)
    (c : ADBConnection) (cmd lp dp : String) :
    (c.isConnected = false →
        c.shell tr dev now cmd = (.error (.adbDeviceOfflineError c.serial), c) ∧
        c.push tr dev now lp dp = (.error (.adbDeviceOfflineError c.serial), c, dev) ∧
        c.pull tr now dp lp = (.error (.adbDeviceOfflineError c.serial), c) ∧
        c.healthCheck tr dev now = (false, c)) ∧
    (c.isConnected = true → tr.shellFault cmd = none →
        c.shell tr dev now cmd =
          (.ok (dev.shellOutput cmd), { c with lastActivity := some now })) ∧
    (∀ e, c.isConnected = true → tr.shellFault cmd = some e →
        c.shell tr dev now cmd = (.error e, { c with lastActivity := some now })) ∧
    ((c.healthCheck tr dev now).1 = true ↔
        (c.isConnected = true ∧ tr.shellFault "echo ping" = none)) := by
  refine ⟨?_, ?_, ?_, ?_⟩
  · intro h
    refine ⟨?_, ?_, ?_, ?_⟩ <;>
      simp [ADBConnection.shell, ADBConnection.push, ADBConnection.pull,
            ADBConnection.healthCheck, h]
  · intro h hf
    simp [ADBConnection.shell, h, hf]
  · intro e h hf
    simp [ADBConnection.shell, h, hf]
  · by_cases h : c.isConnected = true
    · cases hf : tr.shellFault "echo ping" with
      | none => simp [ADBConnection.healthCheck, ADBConnection.shell, h, hf]
      | some e => simp [ADBConnection.healthCheck, ADBConnection.shell, h, hf]
    · simp [ADBConnection.healthCheck, ADBConnection.shell, h]

/-- C7 counterexample: the claim says transport errors propagate as
CommandFailed, but the code re-raises the raw transport exception: on a
live connection a failing shell surfaces the oserror itself, which is
not any application error (no CommandFailed class exists in
utils/errors.py). -/
theorem c7_counterexample :
    (connFx.shell trDown dev0 4 "ls").1 = Except.error (PyExc.oserror "connection lost") ∧
    PyExc.isAppError (PyExc.oserror "connection lost") = false :=
  ⟨rfl, rfl⟩

/-- C7 witness: the theorem applied to a disconnected and a connected
concrete connection. -/
theorem c7_witness :
    ({ connFx with connected := false } : ADBConnection).shell trOK dev0 4 "ls" =
      (.error (.adbDeviceOfflineError "dev-1"), { connFx with connected := false }) ∧
    connFx.shell trOK dev0 4 "echo ping" =
      (.ok "ping", { connFx with lastActivity := some 4 }) ∧
    (connFx.healthCheck trOK dev0 4).1 = true := by
  have hoff := (c7_connection_commands trOK dev0 4
      { connFx with connected := false } "ls" "a" "b").1 rfl
  have hok := (c7_connection_commands trOK dev0 4 connFx "echo ping" "a" "b").2.1 rfl rfl
  have hhc := ((c7_connection_commands trOK dev0 4 connFx "echo ping" "a" "b").2.2.2).mpr
      ⟨rfl, rfl⟩
  exact ⟨hoff.1, hok, hhc⟩

/-- C8: get_connection on a serial with no registered connection fails
with ADBDeviceNotFoundError (and only connect_to_device ever inserts a
key, so a never-connected serial is never registered); after a
disconnect_from_device that returns successfully the serial is absent
from both maps, excluded from list_devices, and get_connection fails;
disconnecting a serial with no registered connection returns
successfully (idempotent). -/
theorem c8_registry_lookup (tr : AdbTransport) (m : ADBDeviceManager) (serial : String) :
    (alookup serial m.connections = none →
        m.getConnection serial = .error (.adbDeviceNotFoundError serial)) ∧
    (∀ m2 : ADBDeviceManager,
        ADBDeviceManager.disconnectFromDevice tr m serial = (.ok (), m2) →
        alookup serial m2.connections = none ∧
        alookup serial m2.devices = none ∧
        m2.getConnection serial = .error (.adbDeviceNotFoundError serial) ∧
        ((∀ p ∈ m.devices, (p.2).serial = p.1) →
            ∀ d ∈ m2.listDevices, ¬ d.serial = serial)) ∧
    (alookup serial m.connections = none →
        (ADBDeviceManager.disconnectFromDevice tr m serial).1 = .ok ()) := by
  refine ⟨?_, ?_, ?_⟩
  · intro h
    simp [ADBDeviceManager.getConnection, h]
  · intro m2 hcall
    have hmain : alookup serial m2.connections = none ∧
        alookup serial m2.devices = none ∧
        (∀ p ∈ m2.devices, p ∈ m.devices) := by
      simp only [ADBDeviceManager.disconnectFromDevice] at hcall
      split at hcall
      · split at hcall
        · simp at hcall
        · simp only [Prod.mk.injEq] at hcall
          obtain ⟨h1x, h2x⟩ := hcall
          subst h2x
          exact ⟨alookup_adel_self serial m.connections,
                 alookup_adel_self serial m.devices,
                 fun p hp => mem_adel hp⟩
      · rename_i hlk
        simp only [Prod.mk.injEq] at hcall
        obtain ⟨h1x, h2x⟩ := hcall
        subst h2x
        exact ⟨hlk, alookup_adel_self serial m.devices, fun p hp => mem_adel hp⟩
    refine ⟨hmain.1, hmain.2.1, ?_, ?_⟩
    · simp [ADBDeviceManager.getConnection, hmain.1]
    · intro hser d hd
      rcases List.mem_map.mp hd with ⟨p, hp, hpd⟩
      intro hds
      have hp1 : p.1 = serial := by
        rw [← hds, ← hpd]
        exact (hser p (hmain.2.2 p hp)).symm
      have : (serial, p.2) ∈ m2.devices := by
        rw [← hp1]
        exact hp
      exact alookup_none_not_mem hmain.2.1 p.2 this
  · intro h
    simp [ADBDeviceManager.disconnectFromDevice, h]

/-- C8 witness: the theorem applied to the two-device registry: a
successful disconnect of dev-1 leaves it absent from the maps and
list_devices, get_connection fails afterwards and on a never-registered
serial, and disconnecting an unregistered serial succeeds. -/
theorem c8_witness :
    (ADBDeviceManager.disconnectFromDevice trOK mgrFx "dev-1").2.getConnection "dev-1" =
      .error (.adbDeviceNotFoundError "dev-1") ∧
    alookup "dev-1" (ADBDeviceManager.disconnectFromDevice trOK mgrFx "dev-1").2.devices = none ∧
    mgrFx.getConnection "dev-3" = .error (.adbDeviceNotFoundError "dev-3") ∧
    (ADBDeviceManager.disconnectFromDevice trOK mgrFx "dev-3").1 = .ok () := by
  have h := (c8_registry_lookup trOK mgrFx "dev-1").2.1
      (ADBDeviceManager.disconnectFromDevice trOK mgrFx "dev-1").2 rfl
  have h3 := (c8_registry_lookup trOK mgrFx "dev-3").1 rfl
  have h4 := (c8_registry_lookup trOK mgrFx "dev-3").2.2 rfl
  exact ⟨h.2.2.1, h.2.1, h3, h4⟩

theorem getDeviceInfo_ok_serial (tr : AdbTransport) (dev : AndroidDevice) (now : Nat)
    (c : ADBConnection) (info : ADBDevice) (c2 : ADBConnection)
    (h : ADBConnection.getDeviceInfo tr dev now c = (.ok info, c2)) :
    info.serial = c.serial := by
  simp only [ADBConnection.getDeviceInfo] at h
  split at h
  · simp at h
  · split at h
    · simp at h
    · split at h
      · simp at h
      · split at h
        · simp at h
        · simp only [Prod.mk.injEq, Except.ok.injEq] at h
          rw [← h.1]

/-- C2 (amended): connect(serial) returns an existing still-connected
connection unchanged; otherwise the fresh path performs the handshake
and the device-info query and publishes the connection and a new session
for the serial only when both succeed; when either step raises, the
error propagates to the caller unchanged -- it is not wrapped into
ADBConnectionError (ConnectionFailed) -- and the registry state is
untouched, so no partial session is published. -/
theorem c2_connect_publishes (tr : AdbTransport) (dev : AndroidDevice) (now : Nat)
    (m : ADBDeviceManager) (serial : String) :
    (∀ ex, alookup serial m.connections = some ex → ex.isConnected = true →
        ADBDeviceManager.connectToDevice tr dev now m serial = (.ok ex, m)) ∧
    (∀ e, (ADBDeviceManager.connectFreshPath tr dev now m serial).1 = .error e →
        (ADBDeviceManager.connectFreshPath tr dev now m serial).2 = m) ∧
    (∀ e c1, ADBConnection.connect tr now
          (ADBConnection.init serial settings.adbHost settings.adbPort) = (.error e, c1) →
        (ADBDeviceManager.connectFreshPath tr dev now m serial).1 = .error e) ∧
    (∀ c1 e c2, ADBConnection.connect tr now
          (ADBConnection.init serial settings.adbHost settings.adbPort) = (.ok (), c1) →
        ADBConnection.getDeviceInfo tr dev now c1 = (.error e, c2) →
        (ADBDeviceManager.connectFreshPath tr dev now m serial).1 = .error e) ∧
    (∀ c, (ADBDeviceManager.connectFreshPath tr dev now m serial).1 = .ok c →
        alookup serial
            (ADBDeviceManager.connectFreshPath tr dev now m serial).2.connections = some c ∧
        ∃ info, alookup serial
              (ADBDeviceManager.connectFreshPath tr dev now m serial).2.devices = some info ∧
            info.serial = serial) ∧
    (alookup serial m.connections = none →
        ADBDeviceManager.connectToDevice tr dev now m serial =
          ADBDeviceManager.connectFreshPath tr dev now m serial) := by
  refine ⟨?_, ?_, ?_, ?_, ?_, ?_⟩
  · intro ex hlk hconn
    simp [ADBDeviceManager.connectToDevice, hlk, hconn]
  · intro e herr
    simp only [ADBDeviceManager.connectFreshPath] at herr ⊢
    split at herr
    · rfl
    · split at herr
      · rfl
      · simp at herr
  · intro e c1 hc
    simp only [ADBDeviceManager.connectFreshPath]
    simp only [hc]
  · intro c1 e c2 hc hi
    simp only [ADBDeviceManager.connectFreshPath]
    simp only [hc, hi]
  · intro c hok
    simp only [ADBDeviceManager.connectFreshPath] at hok ⊢
    split at hok
    · simp at hok
    · rename_i u c1 heq
      split at hok
      · simp at hok
      · rename_i info c2x heq2
        simp only [Except.ok.injEq] at hok
        subst hok
        refine ⟨alookup_aset_self serial c2x m.connections,
                info, alookup_aset_self serial info m.devices, ?_⟩
        have hser : info.serial = c1.serial :=
          getDeviceInfo_ok_serial tr dev now c1 info c2x heq2
        have hc1 : c1.serial = serial := by
          simp only [ADBConnection.connect] at heq
          split at heq
          · simp at heq
          · simp only [Prod.mk.injEq] at heq
            rw [← heq.2]
            rfl
        rw [hser, hc1]
  · intro hlk
    simp [ADBDeviceManager.connectToDevice, hlk]

/-- C2 counterexample: the claim says a failing handshake surfaces as
ConnectionFailed, but connect_to_device propagates the raw transport
error (ADBConnectionError is raised only by initialize in the source):
on an empty registry a handshake failure returns the oserror itself;
no partial session is published. -/
theorem c2_counterexample :
    c2FailTrace.1 = Except.error (PyExc.oserror "boom") ∧
    PyExc.isConnectionFailed (PyExc.oserror "boom") = false ∧
    c2FailTrace.2.connections = [] ∧
    c2FailTrace.2.devices = [] :=
  ⟨rfl, rfl, rfl, rfl⟩

/-- C2 witness: the theorem applied concretely: an already-connected
serial is returned unchanged; a failed handshake leaves the empty
registry untouched; a successful fresh connect publishes a session whose
serial matches. -/
theorem c2_witness :
    ADBDeviceManager.connectToDevice trOK dev0 0 mgrFx "dev-1" = (.ok connFx, mgrFx) ∧
    (ADBDeviceManager.connectFreshPath trConnFail dev0 0 ADBDeviceManager.empty "dev-1").2 =
      ADBDeviceManager.empty ∧
    (∃ info, alookup "dev-1"
          (ADBDeviceManager.connectFreshPath trOK dev0 0
            ADBDeviceManager.empty "dev-1").2.devices = some info ∧
        info.serial = "dev-1") := by
  refine ⟨?_, ?_, ?_⟩
  · exact (c2_connect_publishes trOK dev0 0 mgrFx "dev-1").1 connFx rfl rfl
  · exact (c2_connect_publishes trConnFail dev0 0 ADBDeviceManager.empty "dev-1").2.1
      (PyExc.oserror "boom") rfl
  · exact ((c2_connect_publishes trOK dev0 0 ADBDeviceManager.empty "dev-1").2.2.2.2.1
      _ rfl).2

/-! ## Deployer inversion lemmas -/

theorem shell_ok_inv (tr : AdbTransport) (dev : AndroidDevice) (now : Nat)
    (c : ADBConnection) (cmd r : String) (c1 : ADBConnection)
    (h : ADBConnection.shell tr dev now c cmd = (.ok r, c1)) :
    r = dev.shellOutput cmd ∧ c1 = { c with lastActivity := some now } ∧
      c.isConnected = true := by
  cases hc : c.isConnected with
  | false => simp [ADBConnection.shell, hc] at h
  | true =>
    simp only [ADBConnection.shell, hc, Bool.not_true, Bool.false_eq_true,
               if_false] at h
    split at h
    · simp at h
    · simp only [Prod.mk.injEq, Except.ok.injEq] at h
      exact ⟨h.1.symm, h.2.symm, rfl⟩

theorem push_ok_inv (tr : AdbTransport) (dev : AndroidDevice) (now : Nat)
    (c : ADBConnection) (lp dp : String) (u : Unit) (c1 : ADBConnection)
    (d1 : AndroidDevice)
    (h : ADBConnection.push tr dev now c lp dp = (.ok u, c1, d1)) :
    c1 = { c with lastActivity := some now } ∧ d1 = dev.receivePush dp ∧
      c.isConnected = true := by
  cases hc : c.isConnected with
  | false => simp [ADBConnection.push, hc] at h
  | true =>
    simp only [ADBConnection.push, hc, Bool.not_true, Bool.false_eq_true,
               if_false] at h
    split at h
    · simp at h
    · simp only [Prod.mk.injEq, Except.ok.injEq] at h
      exact ⟨h.2.1.symm, h.2.2.symm, rfl⟩

theorem pushServer_ok_inv (tr : AdbTransport) (dev : AndroidDevice) (now : Nat)
    (c : ADBConnection) (lp : String) (u : Unit) (px : ADBConnection)
    (dx : AndroidDevice) (ops : List DeployOp)
    (h : ScrcpyServerDeployer.pushServer tr dev now c lp = (.ok u, px, dx, ops)) :
    px.isConnected = true ∧ dx = dev.receivePush SERVER_REMOTE_PATH ∧
      ops = [DeployOp.pushFile, DeployOp.chmodFile] := by
  simp only [ScrcpyServerDeployer.pushServer] at h
  split at h
  · simp at h
  · rename_i u2 c1 d1 heqp
    split at h
    · simp at h
    · rename_i r2 c2 heqs
      simp only [Prod.mk.injEq, Except.ok.injEq] at h
      obtain ⟨hc1, hd1, hcc⟩ := push_ok_inv tr dev now c lp SERVER_REMOTE_PATH u2 c1 d1 heqp
      obtain ⟨hr2, hc2, hconn2⟩ := shell_ok_inv tr d1 now c1 chmodServerCmd r2 c2 heqs
      refine ⟨?_, ?_, h.2.2.2.symm⟩
      · rw [← h.2.1, hc2, hc1]
        exact hcc
      · rw [← h.2.2.1, hd1]

theorem pushServer_error_isDeployError (tr : AdbTransport) (dev : AndroidDevice)
    (now : Nat) (c : ADBConnection) (lp : String) (e : PyExc) (px : ADBConnection)
    (dx : AndroidDevice) (ops : List DeployOp)
    (h : ScrcpyServerDeployer.pushServer tr dev now c lp = (.error e, px, dx, ops)) :
    e.isDeployError = true := by
  simp only [ScrcpyServerDeployer.pushServer] at h
  split at h
  · simp only [Prod.mk.injEq, Except.error.injEq] at h
    rw [← h.1]
    rfl
  · split at h
    · simp only [Prod.mk.injEq, Except.error.injEq] at h
      rw [← h.1]
      rfl
    · simp at h

theorem isServerDeployed_true_inv (tr : AdbTransport) (dev : AndroidDevice)
    (now : Nat) (c : ADBConnection)
    (h : (ScrcpyServerDeployer.isServerDeployed tr dev now c).1 = true) :
    dev.hasServer = true ∧
    (ScrcpyServerDeployer.isServerDeployed tr dev now c).2 =
      { c with lastActivity := some now } ∧
    c.isConnected = true := by
  rcases hp : ScrcpyServerDeployer.isServerDeployed tr dev now c with ⟨b, c1⟩
  rw [hp] at h
  have hb : b = true := h
  subst hb
  simp only [ScrcpyServerDeployer.isServerDeployed] at hp
  split at hp
  · rename_i r c2 heqs
    obtain ⟨hr, hc2, hcc⟩ := shell_ok_inv tr dev now c _ r c2 heqs
    simp only [Prod.mk.injEq] at hp
    have hout : dev.shellOutput ("test -f " ++ SERVER_REMOTE_PATH ++ " && echo exists")
        = (if dev.hasServer then "exists" else "") := rfl
    cases hs : dev.hasServer with
    | false =>
      exfalso
      rw [hr, hout, hs] at hp
      simp at hp
      exact absurd hp.1 (by decide)
    | true =>
      refine ⟨rfl, ?_, hcc⟩
      rw [← hp.2]
      exact hc2
  · simp at hp

theorem verify_true_inv (tr : AdbTransport) (dev : AndroidDevice) (now : Nat)
    (c : ADBConnection) (vx : ADBConnection) (vops : List DeployOp)
    (h : ScrcpyServerDeployer.verifyDeployment tr dev now c = (true, vx, vops)) :
    vx.isConnected = true := by
  simp only [ScrcpyServerDeployer.verifyDeployment] at h
  split at h
  · rename_i r c1 heqs
    obtain ⟨hr, hc1, hcc⟩ := shell_ok_inv tr dev now c _ r c1 heqs
    simp only [Prod.mk.injEq] at h
    rw [← h.2.1, hc1]
    exact hcc
  · rename_i e c1 heqs
    simp only [Prod.mk.injEq] at h
    obtain ⟨hsrv, hp2, hcc⟩ := isServerDeployed_true_inv tr dev now c1 h.1
    rw [← h.2.1, hp2]
    exact hcc

theorem wrapDeployErr_isDeployError (e : PyExc) : (wrapDeployErr e).isDeployError = true := by
  unfold wrapDeployErr
  by_cases h : e.isDeployError = true
  · rw [if_pos h]
    exact h
  · rw [if_neg h]
    rfl

theorem deploy_ok_state (tr : AdbTransport) (dev : AndroidDevice)
    (localExists : Bool) (now : Nat) (c : ADBConnection)
    (h : (ScrcpyServerDeployer.deploy tr dev localExists now c).1 = .ok ()) :
    (ScrcpyServerDeployer.deploy tr dev localExists now c).2.2.1.hasServer = true ∧
    (ScrcpyServerDeployer.deploy tr dev localExists now c).2.1.isConnected = true := by
  cases hl : localExists with
  | false =>
    exfalso
    subst hl
    simp [ScrcpyServerDeployer.deploy] at h
  | true =>
    subst hl
    simp only [ScrcpyServerDeployer.deploy, Bool.not_true, Bool.false_eq_true,
               if_false] at h ⊢
    split at h
    · rename_i c1 heqp
      have hp1 : (ScrcpyServerDeployer.isServerDeployed tr dev now c).1 = true := by
        rw [heqp]
      obtain ⟨hsrv, hp2, hcc⟩ := isServerDeployed_true_inv tr dev now c hp1
      have hc1 : c1 = { c with lastActivity := some now } := by
        rw [← hp2, heqp]
      refine ⟨hsrv, ?_⟩
      rw [hc1]
      exact hcc
    · rename_i c1 heqp
      split at h
      · simp at h
      · rename_i u2 c2 d2 ops2 heqpush
        split at h
        · simp at h
        · rename_i c3 vops heqv
          obtain ⟨hpc, hpd, hpo⟩ := pushServer_ok_inv tr dev now c1 _ u2 c2 d2 ops2 heqpush
          have hd2 : d2.hasServer = true := by
            rw [hpd]
            rfl
          exact ⟨hd2, verify_true_inv tr d2 now c2 c3 vops heqv⟩

/-- C4 (amended): deploy is a no-op with success (no push) when the
local artifact exists and the server artifact is already present at the
fixed device path; the local-artifact check runs first, so a missing
local artifact fails with DeployFailed even when the device already has
the server; otherwise deploy pushes the artifact, sets mode 644 on it
(read for owner, group and others -- not executable), and re-verifies;
deploy fails, always with ScrcpyDeployError (DeployFailed), exactly when
the local artifact is missing, the push or chmod fails, or post-push
verification fails; it is idempotent: after a success, a second call
whose existence probe is not faulted succeeds without pushing again. -/
theorem c4_deploy (tr : AdbTransport) (dev : AndroidDevice) (now : Nat)
    (c : ADBConnection) :
    ((ScrcpyServerDeployer.isServerDeployed tr dev now c).1 = true →
        ScrcpyServerDeployer.deploy tr dev true now c =
          (.ok (), (ScrcpyServerDeployer.isServerDeployed tr dev now c).2, dev,
           [DeployOp.checkDeployed])) ∧
    (ScrcpyServerDeployer.deploy tr dev false now c =
        (.error (.scrcpyDeployError ("SCRCpy server file not found at "
            ++ ScrcpyConfigBuilder.getServerPath
            ++ ". Please ensure scrcpy-server.jar is available.") none), c, dev, [])) ∧
    (∀ (localExists : Bool) (e : PyExc),
        (ScrcpyServerDeployer.deploy tr dev localExists now c).1 = .error e →
        e.isDeployError = true) ∧
    (∀ (e : PyExc) (px : ADBConnection) (dx : AndroidDevice) (ops : List DeployOp),
        (ScrcpyServerDeployer.isServerDeployed tr dev now c).1 = false →
        ScrcpyServerDeployer.pushServer tr dev now
            (ScrcpyServerDeployer.isServerDeployed tr dev now c).2
            ScrcpyConfigBuilder.getServerPath = (.error e, px, dx, ops) →
        (ScrcpyServerDeployer.deploy tr dev true now c).1 = .error e) ∧
    (∀ (u : Unit) (px : ADBConnection) (dx : AndroidDevice) (ops : List DeployOp)
        (b : Bool) (vx : ADBConnection) (vops : List DeployOp),
        (ScrcpyServerDeployer.isServerDeployed tr dev now c).1 = false →
        ScrcpyServerDeployer.pushServer tr dev now
            (ScrcpyServerDeployer.isServerDeployed tr dev now c).2
            ScrcpyConfigBuilder.getServerPath = (.ok u, px, dx, ops) →
        ScrcpyServerDeployer.verifyDeployment tr dx now px = (b, vx, vops) →
        (b = false →
          (ScrcpyServerDeployer.deploy tr dev true now c).1 =
            .error (.scrcpyDeployError "Failed to verify scrcpy-server deployment" none)) ∧
        (b = true →
          ScrcpyServerDeployer.deploy tr dev true now c =
            (.ok (), vx, dx, DeployOp.checkDeployed :: ops ++ vops) ∧
          DeployOp.pushFile ∈ ops ∧ DeployOp.chmodFile ∈ ops)) ∧
    (chmodServerCmd = "chmod " ++ toString SERVER_CHMOD_MODE ++ " " ++ SERVER_REMOTE_PATH ∧
     modeGrantsExecute SERVER_CHMOD_MODE = false ∧
     permDigitRead (SERVER_CHMOD_MODE / 100 % 10) = true ∧
     permDigitRead (SERVER_CHMOD_MODE / 10 % 10) = true ∧
     permDigitRead (SERVER_CHMOD_MODE % 10) = true) ∧
    (∀ now2 : Nat, (ScrcpyServerDeployer.deploy tr dev true now c).1 = .ok () →
        tr.shellFault ("test -f " ++ SERVER_REMOTE_PATH ++ " && echo exists") = none →
        ((ScrcpyServerDeployer.deploy tr
            (ScrcpyServerDeployer.deploy tr dev true now c).2.2.1 true now2
            (ScrcpyServerDeployer.deploy tr dev true now c).2.1).1 = .ok () ∧
         DeployOp.pushFile ∉ (ScrcpyServerDeployer.deploy tr
            (ScrcpyServerDeployer.deploy tr dev true now c).2.2.1 true now2
            (ScrcpyServerDeployer.deploy tr dev true now c).2.1).2.2.2)) := by
  refine ⟨?_, ?_, ?_, ?_, ?_, ⟨rfl, by decide, by decide, by decide, by decide⟩, ?_⟩
  · intro hp
    rcases hpp : ScrcpyServerDeployer.isServerDeployed tr dev now c with ⟨b, c1⟩
    rw [hpp] at hp
    simp only at hp
    subst hp
    simp only [ScrcpyServerDeployer.deploy, Bool.not_true, Bool.false_eq_true,
               if_false, hpp]
  · simp only [ScrcpyServerDeployer.deploy, Bool.not_false, if_true]
    rfl
  · intro localExists e herr
    cases hl : localExists with
    | false =>
      subst hl
      simp only [ScrcpyServerDeployer.deploy, Bool.not_false, if_true] at herr
      simp only [Except.error.injEq] at herr
      rw [← herr]
      exact wrapDeployErr_isDeployError _
    | true =>
      subst hl
      simp only [ScrcpyServerDeployer.deploy, Bool.not_true, Bool.false_eq_true,
                 if_false] at herr
      split at herr
      · simp at herr
      · split at herr
        · simp only [Except.error.injEq] at herr
          rw [← herr]
          exact wrapDeployErr_isDeployError _
        · split at herr
          · simp only [Except.error.injEq] at herr
            rw [← herr]
            exact wrapDeployErr_isDeployError _
          · simp at herr
  · intro e px dx ops hp hpush
    rcases hpp : ScrcpyServerDeployer.isServerDeployed tr dev now c with ⟨b, c1⟩
    rw [hpp] at hp hpush
    simp only at hp
    subst hp
    simp only [ScrcpyServerDeployer.deploy, Bool.not_true, Bool.false_eq_true,
               if_false, hpp, hpush]
    have : wrapDeployErr e = e := by
      unfold wrapDeployErr
      rw [if_pos (pushServer_error_isDeployError tr dev now c1 _ e px dx ops hpush)]
    rw [this]
  · intro u px dx ops b vx vops hp hpush hv
    rcases hpp : ScrcpyServerDeployer.isServerDeployed tr dev now c with ⟨b0, c1⟩
    rw [hpp] at hp hpush
    simp only at hp
    subst hp
    constructor
    · intro hb
      subst hb
      simp only [ScrcpyServerDeployer.deploy, Bool.not_true, Bool.false_eq_true,
                 if_false, hpp, hpush, hv]
      rfl
    · intro hb
      subst hb
      obtain ⟨hpc, hpd, hpo⟩ := pushServer_ok_inv tr dev now c1 _ u px dx ops hpush
      refine ⟨?_, ?_, ?_⟩
      · simp only [ScrcpyServerDeployer.deploy, Bool.not_true, Bool.false_eq_true,
                   if_false, hpp, hpush, hv]
      · rw [hpo]
        decide
      · rw [hpo]
        decide
  · intro now2 hok hfault
    obtain ⟨hsrv, hconn⟩ := deploy_ok_state tr dev true now c hok
    rcases hD : ScrcpyServerDeployer.deploy tr dev true now c with ⟨r1, cx, dx, ops1⟩
    rw [hD] at hsrv hconn
    have hsrv2 : dx.hasServer = true := hsrv
    have hconn2 : cx.isConnected = true := hconn
    have hout : dx.shellOutput ("test -f " ++ SERVER_REMOTE_PATH ++ " && echo exists")
        = (if dx.hasServer then "exists" else "") := rfl
    have hsh : cx.shell tr dx now2 ("test -f " ++ SERVER_REMOTE_PATH ++ " && echo exists")
        = (.ok "exists", { cx with lastActivity := some now2 }) := by
      simp only [ADBConnection.shell, hconn2, Bool.not_true, Bool.false_eq_true,
                 if_false, hfault]
      rw [hout, hsrv2]
      simp
    have hprobe : ScrcpyServerDeployer.isServerDeployed tr dx now2 cx =
        (true, { cx with lastActivity := some now2 }) := by
      simp only [ScrcpyServerDeployer.isServerDeployed, hsh]
      rw [show (pyStrip "exists" == "exists") = true from by decide]
    constructor
    · show (ScrcpyServerDeployer.deploy tr dx true now2 cx).1 = .ok ()
      simp only [ScrcpyServerDeployer.deploy, Bool.not_true, Bool.false_eq_true,
                 if_false, hprobe]
    · show DeployOp.pushFile ∉ (ScrcpyServerDeployer.deploy tr dx true now2 cx).2.2.2
      simp only [ScrcpyServerDeployer.deploy, Bool.not_true, Bool.false_eq_true,
                 if_false, hprobe]
      decide

/-- C4 counterexample: the claim promises a successful no-op whenever
the artifact is already present on the device, and an
executable-readable permission; but with the artifact present and the
local file missing, deploy fails with DeployFailed (the local check runs
first), and the permission set is 644, which grants no execute bit. -/
theorem c4_counterexample :
    devHas.hasServer = true ∧
    c4FailTrace.1 = Except.error (PyExc.scrcpyDeployError msgNotFound none) ∧
    modeGrantsExecute SERVER_CHMOD_MODE = false :=
  ⟨rfl, rfl, by decide⟩

/-- C4 witness: the theorem applied concretely: no-op on an
already-deployed device, DeployFailed on a missing local artifact, a
fresh deploy pushes then succeeds, and a second call after the success
does not push again. -/
theorem c4_witness :
    ScrcpyServerDeployer.deploy trOK devHas true 3 connFx =
      (.ok (), { connFx with lastActivity := some 3 }, devHas,
       [DeployOp.checkDeployed]) ∧
    (ScrcpyServerDeployer.deploy trOK dev0 false 3 connFx).1 =
      .error (.scrcpyDeployError msgNotFound none) ∧
    ((ScrcpyServerDeployer.deploy trOK
        (ScrcpyServerDeployer.deploy trOK dev0 true 3 connFx).2.2.1 true 4
        (ScrcpyServerDeployer.deploy trOK dev0 true 3 connFx).2.1).1 = .ok () ∧
     DeployOp.pushFile ∉ (ScrcpyServerDeployer.deploy trOK
        (ScrcpyServerDeployer.deploy trOK dev0 true 3 connFx).2.2.1 true 4
        (ScrcpyServerDeployer.deploy trOK dev0 true 3 connFx).2.1).2.2.2) := by
  refine ⟨?_, ?_, ?_⟩
  · exact (c4_deploy trOK devHas 3 connFx).1 rfl
  · rw [(c4_deploy trOK dev0 3 connFx).2.1]
    rfl
  · exact (c4_deploy trOK dev0 3 connFx).2.2.2.2.2.2 4 rfl rfl

/-! ## Fan-out lemmas -/

theorem subsOf_disconnect_self (m : ConnectionManager) (ws : WS) (serial : String) :
    (m.disconnect ws serial).subsOf serial =
      (m.subsOf serial).filter (fun w => !(w = ws)) := by
  simp only [ConnectionManager.disconnect, ConnectionManager.subsOf]
  cases hlk : alookup serial m.active with
  | none => simp [hlk]
  | some s =>
    simp only [hlk, Option.getD_some]
    by_cases he : (s.filter (fun w => !(w = ws))).isEmpty = true
    · rw [if_pos he]
      rw [List.isEmpty_iff] at he
      simp [ConnectionManager.subsOf, alookup_adel_self, he]
    · rw [if_neg he]
      simp [ConnectionManager.subsOf, alookup_aset_self]

theorem subsOf_foldl_disconnect (D : List WS) (m : ConnectionManager) (serial : String) :
    ((D.foldl (fun acc w => acc.disconnect w serial) m).subsOf serial) =
      D.foldl (fun l w => l.filter (fun x => !(x = w))) (m.subsOf serial) := by
  induction D generalizing m with
  | nil => rfl
  | cons d rest ih =>
    simp only [List.foldl_cons]
    rw [ih, subsOf_disconnect_self]

theorem mem_foldl_filter (D : List WS) (l : List WS) (x : WS) :
    x ∈ D.foldl (fun acc w => acc.filter (fun y => !(y = w))) l ↔
      x ∈ l ∧ ∀ d ∈ D, ¬ x = d := by
  induction D generalizing l with
  | nil => simp
  | cons d rest ih =>
    simp only [List.foldl_cons, ih, List.mem_filter]
    constructor
    · rintro ⟨⟨hx, hd⟩, hrest⟩
      refine ⟨hx, fun d2 hd2 => ?_⟩
      rcases List.mem_cons.mp hd2 with h | h
      · subst h
        simpa using hd
      · exact hrest d2 h
    · rintro ⟨hx, hall⟩
      refine ⟨⟨hx, ?_⟩, fun d2 hd2 => hall d2 (List.mem_cons_of_mem _ hd2)⟩
      simpa using hall d (List.mem_cons_self d rest)

theorem invCM_connect (m : ConnectionManager) (ws : WS) (serial : String)
    (h : InvCM m) : InvCM (m.connect ws serial) := by
  obtain ⟨hkeys, hsets⟩ := h
  have hcur : (match alookup serial m.active with
      | some s => s
      | none => []) ≠ [] ∨ True := Or.inr trivial
  constructor
  · exact aset_keys_nodup hkeys
  · intro p hp
    rcases mem_aset hp with h1 | h1
    · subst h1
      cases hlk : alookup serial m.active with
      | none =>
        simp only [ConnectionManager.connect, hlk]
        constructor
        · simp [setAdd]
        · simp [setAdd]
      | some s =>
        obtain ⟨hne, hnd⟩ := hsets (serial, s) (alookup_some_mem hlk)
        simp only [ConnectionManager.connect, hlk]
        constructor
        · simp only [setAdd]
          by_cases hw : ws ∈ s
          · simpa [hw] using hne
          · simp [hw]
        · simp only [setAdd]
          by_cases hw : ws ∈ s
          · simpa [hw] using hnd
          · simp only [hw, if_neg, not_false_iff]
            exact List.Nodup.append hnd (List.nodup_singleton ws)
              (fun a ha hb => hw ((List.mem_singleton.mp hb) ▸ ha))
    · exact hsets p h1

theorem invCM_disconnect (m : ConnectionManager) (ws : WS) (serial : String)
    (h : InvCM m) : InvCM (m.disconnect ws serial) := by
  obtain ⟨hkeys, hsets⟩ := h
  cases hlk : alookup serial m.active with
  | none =>
    simp only [ConnectionManager.disconnect, hlk]
    exact ⟨hkeys, hsets⟩
  | some s =>
    simp only [ConnectionManager.disconnect, hlk]
    obtain ⟨hne, hnd⟩ := hsets (serial, s) (alookup_some_mem hlk)
    by_cases he : (s.filter (fun w => !(w = ws))).isEmpty = true
    · rw [if_pos he]
      exact ⟨adel_keys_nodup hkeys, fun p hp => hsets p (mem_adel hp)⟩
    · rw [if_neg he]
      refine ⟨aset_keys_nodup hkeys, fun p hp => ?_⟩
      rcases mem_aset hp with h1 | h1
      · subst h1
        constructor
        · intro hnil
          have hnil2 : s.filter (fun w => !(w = ws)) = [] := hnil
          rw [hnil2] at he
          simp at he
        · exact List.Nodup.filter _ hnd
      · exact hsets p h1

theorem invCM_foldl_disconnect (D : List WS) (m : ConnectionManager) (serial : String)
    (h : InvCM m) : InvCM (D.foldl (fun acc w => acc.disconnect w serial) m) := by
  induction D generalizing m with
  | nil => exact h
  | cons d rest ih =>
    simp only [List.foldl_cons]
    exact ih _ (invCM_disconnect m d serial h)

/-- C5: broadcasting (structured or binary) to a serial with no
subscribers returns without error and changes nothing; otherwise the
send pass is computed over the subscriber set as it was when the
broadcast began: every open subscriber of that set gets a write attempt
regardless of other subscribers' failures (one subscriber's throwing
write never fails the broadcast, which always returns normally), every
transport that is not open or whose write throws is collected and
detached only after the pass completes (the iterated set is never
mutated during the pass), and every open non-throwing subscriber
remains registered afterwards. -/
theorem c5_broadcast (m : ConnectionManager) (serial : String) :
    (alookup serial m.active = none →
        m.sendMessage serial = (m, []) ∧ m.sendBinary serial = (m, [])) ∧
    (∀ subs, alookup serial m.active = some subs →
      ((m.sendMessage serial).2 =
          (subs.filter (fun w => w.clientState = .connected)).map WS.id ∧
       (∀ w, w ∈ subs → w.clientState = .connected →
           w.id ∈ (m.sendMessage serial).2) ∧
       (∀ w, w ∈ subs → (¬ w.clientState = .connected ∨ w.sendJsonFault = true) →
           w ∉ (m.sendMessage serial).1.subsOf serial) ∧
       (∀ w, w ∈ subs → w.clientState = .connected → w.sendJsonFault = false →
           w ∈ (m.sendMessage serial).1.subsOf serial)) ∧
      ((m.sendBinary serial).2 =
          (subs.filter (fun w => w.clientState = .connected)).map WS.id ∧
       (∀ w, w ∈ subs → (¬ w.clientState = .connected ∨ w.sendBytesFault = true) →
           w ∉ (m.sendBinary serial).1.subsOf serial) ∧
       (∀ w, w ∈ subs → w.clientState = .connected → w.sendBytesFault = false →
           w ∈ (m.sendBinary serial).1.subsOf serial))) := by
  have hsubsOf : ∀ subs, alookup serial m.active = some subs →
      m.subsOf serial = subs := by
    intro subs hlk
    simp [ConnectionManager.subsOf, hlk]
  constructor
  · intro hlk
    constructor <;> simp [ConnectionManager.sendMessage, ConnectionManager.sendBinary, hlk]
  · intro subs hlk
    have hmsg : (m.sendMessage serial).1 =
        (subs.filter (fun w => !(w.clientState = .connected) || w.sendJsonFault)).foldl
          (fun acc w => acc.disconnect w serial) m ∧
        (m.sendMessage serial).2 =
          (subs.filter (fun w => w.clientState = .connected)).map WS.id := by
      simp [ConnectionManager.sendMessage, hlk]
    have hbin : (m.sendBinary serial).1 =
        (subs.filter (fun w => !(w.clientState = .connected) || w.sendBytesFault)).foldl
          (fun acc w => acc.disconnect w serial) m ∧
        (m.sendBinary serial).2 =
          (subs.filter (fun w => w.clientState = .connected)).map WS.id := by
      simp [ConnectionManager.sendBinary, hlk]
    refine ⟨⟨hmsg.2, ?_, ?_, ?_⟩, hbin.1 ▸ ⟨hbin.2, ?_, ?_⟩⟩
    · intro w hw hopen
      rw [hmsg.2]
      exact List.mem_map.mpr ⟨w, List.mem_filter.mpr ⟨hw, by simp [hopen]⟩, rfl⟩
    · intro w hw hbad
      rw [hmsg.1, subsOf_foldl_disconnect, mem_foldl_filter]
      rintro ⟨hmem, hall⟩
      refine hall w (List.mem_filter.mpr ⟨hw, ?_⟩) rfl
      rcases hbad with hb | hb <;> simp [hb]
    · intro w hw hopen hfault
      rw [hmsg.1, subsOf_foldl_disconnect, mem_foldl_filter, hsubsOf subs hlk]
      refine ⟨hw, fun d hd hcontra => ?_⟩
      subst hcontra
      have := List.mem_filter.mp hd
      simp [hopen, hfault] at this
    · intro w hw hbad
      rw [subsOf_foldl_disconnect, mem_foldl_filter]
      rintro ⟨hmem, hall⟩
      refine hall w (List.mem_filter.mpr ⟨hw, ?_⟩) rfl
      rcases hbad with hb | hb <;> simp [hb]
    · intro w hw hopen hfault
      rw [subsOf_foldl_disconnect, mem_foldl_filter, hsubsOf subs hlk]
      refine ⟨hw, fun d hd hcontra => ?_⟩
      subst hcontra
      have := List.mem_filter.mp hd
      simp [hopen, hfault] at this

/-- C5 witness: the theorem applied to the concrete three-subscriber
manager: an unknown serial is a silent no-op; the open subscribers (ids
1 and 3) each get the write, the non-open and the throwing transports
are detached after the pass, and the healthy open one remains. -/
theorem c5_witness :
    cmFx.sendMessage "ghost" = (cmFx, []) ∧
    (cmFx.sendMessage "dev-1").2 = [1, 3] ∧
    wsB ∉ (cmFx.sendMessage "dev-1").1.subsOf "dev-1" ∧
    wsC ∉ (cmFx.sendMessage "dev-1").1.subsOf "dev-1" ∧
    wsA ∈ (cmFx.sendMessage "dev-1").1.subsOf "dev-1" := by
  have h0 := (c5_broadcast cmFx "ghost").1 rfl
  have h := (c5_broadcast cmFx "dev-1").2 [wsA, wsB, wsC] rfl
  refine ⟨h0.1, ?_, ?_, ?_, ?_⟩
  · rw [h.1.1]
    decide
  · exact h.1.2.2.1 wsB (by decide) (Or.inl (by decide))
  · exact h.1.2.2.1 wsC (by decide) (Or.inr rfl)
  · exact h.1.2.2.2 wsA (by decide) rfl rfl

/-- C10: attach, detach and both broadcast-with-prune operations
preserve the subscriber-map invariant (unique serial keys, every
registered serial mapping to a non-empty duplicate-free set); moreover
detach on a serial with no registered set, or on a transport absent from
that serial's set, is a no-op that raises no error. -/
theorem c10_fanout_invariant :
    (∀ (m : ConnectionManager) (ws : WS) (serial : String), InvCM m →
        InvCM (m.connect ws serial)) ∧
    (∀ (m : ConnectionManager) (ws : WS) (serial : String), InvCM m →
        InvCM (m.disconnect ws serial)) ∧
    (∀ (m : ConnectionManager) (serial : String), InvCM m →
        InvCM (m.sendMessage serial).1) ∧
    (∀ (m : ConnectionManager) (serial : String), InvCM m →
        InvCM (m.sendBinary serial).1) ∧
    (∀ (m : ConnectionManager) (ws : WS) (serial : String),
        alookup serial m.active = none → m.disconnect ws serial = m) ∧
    (∀ (m : ConnectionManager) (ws : WS) (serial : String) (subs : List WS),
        InvCM m → alookup serial m.active = some subs → ws ∉ subs →
        m.disconnect ws serial = m) := by
  refine ⟨invCM_connect, invCM_disconnect, ?_, ?_, ?_, ?_⟩
  · intro m serial h
    simp only [ConnectionManager.sendMessage]
    cases hlk : alookup serial m.active with
    | none => exact h
    | some subs => exact invCM_foldl_disconnect _ m serial h
  · intro m serial h
    simp only [ConnectionManager.sendBinary]
    cases hlk : alookup serial m.active with
    | none => exact h
    | some subs => exact invCM_foldl_disconnect _ m serial h
  · intro m ws serial hlk
    simp [ConnectionManager.disconnect, hlk]
  · intro m ws serial subs hinv hlk hws
    have hfix : subs.filter (fun w => !(w = ws)) = subs := by
      apply List.filter_eq_self.mpr
      intro a ha
      have hne2 : ¬ a = ws := fun hh => hws (hh ▸ ha)
      simp [hne2]
    simp only [ConnectionManager.disconnect, hlk, hfix]
    have hne := (hinv.2 (serial, subs) (alookup_some_mem hlk)).1
    rw [if_neg (by simpa [List.isEmpty_iff] using hne)]
    rw [aset_self_of_lookup hlk]

/-- C10 witness: the theorem applied concretely: attaching a transport
and broadcasting on the three-subscriber manager preserve the invariant,
and detaching on an unknown serial or an unregistered transport changes
nothing. -/
theorem c10_witness :
    InvCM (cmFx.connect wsA "dev-2") ∧
    InvCM ((cmFx.sendMessage "dev-1").1) ∧
    cmFx.disconnect wsA "ghost" = cmFx ∧
    cmFx.disconnect { id := 9, clientState := .connected, sendJsonFault := false,
                      sendBytesFault := false } "dev-1" = cmFx := by
  have hinv : InvCM cmFx := ⟨by decide, by decide⟩
  refine ⟨c10_fanout_invariant.1 cmFx wsA "dev-2" hinv,
          c10_fanout_invariant.2.2.1 cmFx "dev-1" hinv,
          c10_fanout_invariant.2.2.2.2.1 cmFx wsA "ghost" rfl,
          c10_fanout_invariant.2.2.2.2.2 cmFx _ "dev-1" [wsA, wsB, wsC] hinv rfl
            (by decide)⟩

/-! ## Health poll lemmas -/

theorem connection_disconnect_ok (tr : AdbTransport) (c : ADBConnection)
    (h : tr.closeFault = none) : (ADBConnection.disconnect tr c).1 = .ok () := by
  by_cases hh : c.deviceHandle = true <;> simp [ADBConnection.disconnect, hh, h]

theorem disconnectFromDevice_lookup_other (tr : AdbTransport) (m : ADBDeviceManager)
    (serial s : String) (h : ¬ s = serial) :
    alookup s (ADBDeviceManager.disconnectFromDevice tr m serial).2.connections =
      alookup s m.connections ∧
    alookup s (ADBDeviceManager.disconnectFromDevice tr m serial).2.devices =
      alookup s m.devices := by
  cases hlk : alookup serial m.connections with
  | none =>
    simp [ADBDeviceManager.disconnectFromDevice, hlk, alookup_adel_ne _ _ _ h]
  | some conn =>
    simp only [ADBDeviceManager.disconnectFromDevice, hlk]
    rcases hdd : ADBConnection.disconnect tr conn with ⟨res, c2⟩
    cases res with
    | error e => simp
    | ok u => simp [alookup_adel_ne _ _ _ h]

theorem disconnectFromDevice_ok (tr : AdbTransport) (m : ADBDeviceManager)
    (serial : String) (h : tr.closeFault = none) :
    (ADBDeviceManager.disconnectFromDevice tr m serial).1 = .ok () := by
  cases hlk : alookup serial m.connections with
  | none => simp [ADBDeviceManager.disconnectFromDevice, hlk]
  | some conn =>
    simp only [ADBDeviceManager.disconnectFromDevice, hlk]
    have hok := connection_disconnect_ok tr conn h
    rcases hdd : ADBConnection.disconnect tr conn with ⟨res, c2⟩
    rw [hdd] at hok
    cases res with
    | error e => simp at hok
    | ok u => simp

theorem disconnectFromDevice_lookup_self (tr : AdbTransport) (m : ADBDeviceManager)
    (serial : String) (h : tr.closeFault = none) :
    alookup serial (ADBDeviceManager.disconnectFromDevice tr m serial).2.connections =
      none ∧
    alookup serial (ADBDeviceManager.disconnectFromDevice tr m serial).2.devices =
      none := by
  cases hlk : alookup serial m.connections with
  | none =>
    simp [ADBDeviceManager.disconnectFromDevice, hlk, alookup_adel_self]
  | some conn =>
    simp only [ADBDeviceManager.disconnectFromDevice, hlk]
    have hok := connection_disconnect_ok tr conn h
    rcases hdd : ADBConnection.disconnect tr conn with ⟨res, c2⟩
    rw [hdd] at hok
    cases res with
    | error e => simp at hok
    | ok u => simp [alookup_adel_self]

theorem disconnectFromDevice_devices_subset (tr : AdbTransport) (m : ADBDeviceManager)
    (serial : String) :
    ∀ p ∈ (ADBDeviceManager.disconnectFromDevice tr m serial).2.devices,
      p ∈ m.devices := by
  cases hlk : alookup serial m.connections with
  | none =>
    simp only [ADBDeviceManager.disconnectFromDevice, hlk]
    exact fun p hp => mem_adel hp
  | some conn =>
    simp only [ADBDeviceManager.disconnectFromDevice, hlk]
    rcases hdd : ADBConnection.disconnect tr conn with ⟨res, c2⟩
    cases res with
    | error e => simp
    | ok u =>
      intro p hp
      exact mem_adel hp

theorem evict_preserves_absent (tr : AdbTransport) (l : List (String × Bool))
    (m : ADBDeviceManager) (s : String) (h : s ∉ l.map Prod.fst) :
    alookup s (ADBDeviceManager.evictUnhealthy tr l m).connections =
      alookup s m.connections ∧
    alookup s (ADBDeviceManager.evictUnhealthy tr l m).devices =
      alookup s m.devices := by
  induction l generalizing m with
  | nil => exact ⟨rfl, rfl⟩
  | cons p rest ih =>
    obtain ⟨serial2, healthy⟩ := p
    have hs2 : ¬ s = serial2 := fun hh => h (by simp [hh])
    have hrest : s ∉ rest.map Prod.fst := fun hh => h (by simp [hh])
    simp only [ADBDeviceManager.evictUnhealthy]
    cases healthy with
    | true =>
      simp only [if_true]
      exact ih m hrest
    | false =>
      simp only [Bool.false_eq_true, if_false]
      rcases hdd : ADBDeviceManager.disconnectFromDevice tr m serial2 with ⟨res, m2⟩
      have hoth := disconnectFromDevice_lookup_other tr m serial2 s hs2
      rw [hdd] at hoth
      have h1 : alookup s m2.connections = alookup s m.connections := hoth.1
      have h2 : alookup s m2.devices = alookup s m.devices := hoth.2
      cases res with
      | error e => exact ⟨h1, h2⟩
      | ok u =>
        have := ih m2 hrest
        exact ⟨this.1.trans h1, this.2.trans h2⟩

theorem evict_preserves_mem_true (tr : AdbTransport) (l : List (String × Bool))
    (m : ADBDeviceManager) (s : String)
    (hnd : (l.map Prod.fst).Nodup) (hmem : (s, true) ∈ l) :
    alookup s (ADBDeviceManager.evictUnhealthy tr l m).connections =
      alookup s m.connections ∧
    alookup s (ADBDeviceManager.evictUnhealthy tr l m).devices =
      alookup s m.devices := by
  induction l generalizing m with
  | nil => simp at hmem
  | cons p rest ih =>
    obtain ⟨serial2, healthy⟩ := p
    have hnd2 : serial2 ∉ rest.map Prod.fst ∧ (rest.map Prod.fst).Nodup := by
      rw [List.map_cons, List.nodup_cons] at hnd
      exact hnd
    rcases List.mem_cons.mp hmem with h1 | h1
    · have hs : serial2 = s := by
        have := congrArg Prod.fst h1
        exact this.symm
      have hh : healthy = true := by
        have := congrArg Prod.snd h1
        exact this.symm
      subst hs
      subst hh
      simp only [ADBDeviceManager.evictUnhealthy, if_true]
      exact evict_preserves_absent tr rest m serial2 hnd2.1
    · have hs2 : ¬ s = serial2 := by
        intro hh
        subst hh
        exact hnd2.1 (List.mem_map.mpr ⟨(s, true), h1, rfl⟩)
      simp only [ADBDeviceManager.evictUnhealthy]
      cases healthy with
      | true =>
        simp only [if_true]
        exact ih m hnd2.2 h1
      | false =>
        simp only [Bool.false_eq_true, if_false]
        rcases hdd : ADBDeviceManager.disconnectFromDevice tr m serial2 with ⟨res, m2⟩
        have hoth := disconnectFromDevice_lookup_other tr m serial2 s hs2
        rw [hdd] at hoth
        have hc1 : alookup s m2.connections = alookup s m.connections := hoth.1
        have hc2 : alookup s m2.devices = alookup s m.devices := hoth.2
        cases res with
        | error e => exact ⟨hc1, hc2⟩
        | ok u =>
          have := ih m2 hnd2.2 h1
          exact ⟨this.1.trans hc1, this.2.trans hc2⟩

theorem evict_removes_false (tr : AdbTransport) (l : List (String × Bool))
    (m : ADBDeviceManager) (s : String) (hclose : tr.closeFault = none)
    (hnd : (l.map Prod.fst).Nodup) (hmem : (s, false) ∈ l) :
    alookup s (ADBDeviceManager.evictUnhealthy tr l m).connections = none ∧
    alookup s (ADBDeviceManager.evictUnhealthy tr l m).devices = none := by
  induction l generalizing m with
  | nil => simp at hmem
  | cons p rest ih =>
    obtain ⟨serial2, healthy⟩ := p
    have hnd2 : serial2 ∉ rest.map Prod.fst ∧ (rest.map Prod.fst).Nodup := by
      rw [List.map_cons, List.nodup_cons] at hnd
      exact hnd
    rcases List.mem_cons.mp hmem with h1 | h1
    · have hs : serial2 = s := (congrArg Prod.fst h1).symm
      have hh : healthy = false := (congrArg Prod.snd h1).symm
      subst hs
      subst hh
      simp only [ADBDeviceManager.evictUnhealthy, Bool.false_eq_true, if_false]
      have hok := disconnectFromDevice_ok tr m serial2 hclose
      have hself := disconnectFromDevice_lookup_self tr m serial2 hclose
      rcases hdd : ADBDeviceManager.disconnectFromDevice tr m serial2 with ⟨res, m2⟩
      rw [hdd] at hok hself
      cases res with
      | error e => simp at hok
      | ok u =>
        have habs := evict_preserves_absent tr rest m2 serial2 hnd2.1
        exact ⟨habs.1.trans hself.1, habs.2.trans hself.2⟩
    · have hs2 : ¬ s = serial2 := by
        intro hh
        subst hh
        exact hnd2.1 (List.mem_map.mpr ⟨(s, false), h1, rfl⟩)
      simp only [ADBDeviceManager.evictUnhealthy]
      cases healthy with
      | true =>
        simp only [if_true]
        exact ih m hnd2.2 h1
      | false =>
        simp only [Bool.false_eq_true, if_false]
        have hok := disconnectFromDevice_ok tr m serial2 hclose
        rcases hdd : ADBDeviceManager.disconnectFromDevice tr m serial2 with ⟨res, m2⟩
        rw [hdd] at hok
        cases res with
        | error e => simp at hok
        | ok u => exact ih m2 hnd2.2 h1

theorem evict_devices_subset (tr : AdbTransport) (l : List (String × Bool))
    (m : ADBDeviceManager) :
    ∀ p ∈ (ADBDeviceManager.evictUnhealthy tr l m).devices, p ∈ m.devices := by
  induction l generalizing m with
  | nil => exact fun p hp => hp
  | cons q rest ih =>
    obtain ⟨serial2, healthy⟩ := q
    simp only [ADBDeviceManager.evictUnhealthy]
    cases healthy with
    | true =>
      simp only [if_true]
      exact ih m
    | false =>
      simp only [Bool.false_eq_true, if_false]
      have hsub := disconnectFromDevice_devices_subset tr m serial2
      rcases hdd : ADBDeviceManager.disconnectFromDevice tr m serial2 with ⟨res, m2⟩
      rw [hdd] at hsub
      cases res with
      | error e => exact hsub
      | ok u => exact fun p hp => hsub p (ih m2 p hp)

/-- C3 (amended): one health-poll cycle gathers a boolean health result
for every tracked connection against the pre-cycle state (the real
health check is total: an error inside it yields false rather than an
exception, so the isinstance guard never skips an entry) and then
disconnects the entries whose result is false; provided the transport
closes raised by these evictions all succeed, every such serial is
absent from list() and from the connection map after the cycle (a
failing close would abort the remainder of the cycle, leaving that
serial and the not-yet-processed unhealthy serials in place); every
device whose health check returns true remains present, with its
session data unchanged, unconditionally. -/
theorem c3_health_poll (tr : AdbTransport) (dev : AndroidDevice) (now : Nat)
    (m : ADBDeviceManager)
    (hnd : (m.connections.map Prod.fst).Nodup) :
    (∀ s c, (s, c) ∈ m.connections →
        (ADBConnection.healthCheck tr dev now c).1 = true →
        alookup s (m.pollDevices tr dev now).connections =
          some (ADBConnection.healthCheck tr dev now c).2 ∧
        alookup s (m.pollDevices tr dev now).devices = alookup s m.devices) ∧
    (tr.closeFault = none →
      ∀ s c, (s, c) ∈ m.connections →
        (ADBConnection.healthCheck tr dev now c).1 = false →
        alookup s (m.pollDevices tr dev now).connections = none ∧
        alookup s (m.pollDevices tr dev now).devices = none ∧
        ((∀ p ∈ m.devices, (p.2).serial = p.1) →
          ∀ d ∈ (m.pollDevices tr dev now).listDevices, ¬ d.serial = s)) := by
  have hcomp : (m.pollDevices tr dev now) =
      ADBDeviceManager.evictUnhealthy tr
        (m.connections.map (fun p => (p.1, (ADBConnection.healthCheck tr dev now p.2).1)))
        (ADBDeviceManager.mk
          (m.connections.map (fun p => (p.1, (ADBConnection.healthCheck tr dev now p.2).2)))
          m.devices) := by
    simp [ADBDeviceManager.pollDevices, List.map_map, Function.comp_def]
  have hkeysres :
      ((m.connections.map
          (fun p => (p.1, (ADBConnection.healthCheck tr dev now p.2).1))).map
        Prod.fst) = m.connections.map Prod.fst := by
    simp [List.map_map, Function.comp]
  have hkeysconn :
      ((m.connections.map
          (fun p => (p.1, (ADBConnection.healthCheck tr dev now p.2).2))).map
        Prod.fst) = m.connections.map Prod.fst := by
    simp [List.map_map, Function.comp]
  constructor
  · intro s c hmem htrue
    have hmemres : (s, true) ∈ m.connections.map
        (fun p => (p.1, (ADBConnection.healthCheck tr dev now p.2).1)) := by
      refine List.mem_map.mpr ⟨(s, c), hmem, ?_⟩
      simp [htrue]
    have hpres := evict_preserves_mem_true tr
        (m.connections.map (fun p => (p.1, (ADBConnection.healthCheck tr dev now p.2).1)))
        (ADBDeviceManager.mk
          (m.connections.map (fun p => (p.1, (ADBConnection.healthCheck tr dev now p.2).2)))
          m.devices)
        s (by rw [hkeysres]; exact hnd) hmemres
    rw [hcomp]
    refine ⟨hpres.1.trans ?_, hpres.2⟩
    exact alookup_map_value (fun c2 => (ADBConnection.healthCheck tr dev now c2).2) hnd hmem
  · intro hclose s c hmem hfalse
    have hmemres : (s, false) ∈ m.connections.map
        (fun p => (p.1, (ADBConnection.healthCheck tr dev now p.2).1)) := by
      refine List.mem_map.mpr ⟨(s, c), hmem, ?_⟩
      simp [hfalse]
    have hrem := evict_removes_false tr
        (m.connections.map (fun p => (p.1, (ADBConnection.healthCheck tr dev now p.2).1)))
        (ADBDeviceManager.mk
          (m.connections.map (fun p => (p.1, (ADBConnection.healthCheck tr dev now p.2).2)))
          m.devices)
        s hclose (by rw [hkeysres]; exact hnd) hmemres
    rw [hcomp]
    refine ⟨hrem.1, hrem.2, ?_⟩
    intro hser d hd
    rcases List.mem_map.mp hd with ⟨p, hp, hpd⟩
    intro hds
    have hpm : p ∈ m.devices := evict_devices_subset tr
        (m.connections.map (fun p => (p.1, (ADBConnection.healthCheck tr dev now p.2).1)))
        (ADBDeviceManager.mk
          (m.connections.map (fun p => (p.1, (ADBConnection.healthCheck tr dev now p.2).2)))
          m.devices)
        p hp
    have hp1 : p.1 = s := by
      rw [← hds, ← hpd]
      exact (hser p hpm).symm
    have hin : (s, p.2) ∈ (ADBDeviceManager.evictUnhealthy tr
        (m.connections.map (fun p => (p.1, (ADBConnection.healthCheck tr dev now p.2).1)))
        (ADBDeviceManager.mk
          (m.connections.map (fun p => (p.1, (ADBConnection.healthCheck tr dev now p.2).2)))
          m.devices)).devices := by
      rw [← hp1]
      exact hp
    exact alookup_none_not_mem hrem.2 p.2 hin

/-- C3 counterexample: the claim requires every device whose health
check reported falsy to be absent after the cycle, but a failing
transport close aborts the cycle inside the outer except of
poll_devices: with both devices unhealthy and closes raising, the first
eviction fails and dev-2, whose health check returned false, is still in
list() and the connection map after the cycle. -/
theorem c3_counterexample :
    (ADBConnection.healthCheck trUnhealthy dev0 9 connFx2).1 = false ∧
    alookup "dev-2" c3PollTrace.connections =
      some { connFx2 with lastActivity := some 9 } ∧
    alookup "dev-2" c3PollTrace.devices = some (sessFx "dev-2") ∧
    sessFx "dev-2" ∈ c3PollTrace.listDevices := by
  refine ⟨rfl, rfl, rfl, ?_⟩
  decide

/-- C3 witness: the theorem applied to the mixed registry under a
fault-free transport: the healthy dev-1 stays with its session
unchanged, the unhealthy dev-3 is evicted from both maps and from
list(). -/
theorem c3_witness :
    alookup "dev-1" (mgrMix.pollDevices trOK dev0 7).connections =
      some { connFx with lastActivity := some 7 } ∧
    alookup "dev-1" (mgrMix.pollDevices trOK dev0 7).devices =
      some (sessFx "dev-1") ∧
    alookup "dev-3" (mgrMix.pollDevices trOK dev0 7).connections = none ∧
    alookup "dev-3" (mgrMix.pollDevices trOK dev0 7).devices = none := by
  have h1 := (c3_health_poll trOK dev0 7 mgrMix (by decide)).1 "dev-1" connFx
      (by decide) rfl
  have h3 := (c3_health_poll trOK dev0 7 mgrMix (by decide)).2 rfl "dev-3" connOff
      (by decide) rfl
  exact ⟨h1.1, h1.2.trans rfl, h3.1, h3.2.1⟩

end Scws
